import Mathlib

/-!
Verification of the SmartWardrobe core against its design specification.

The development shallowly embeds the algorithmic core of the repository:
usage counters (shared usage-count module), duplicate detection
(shared/utils.ts), category refinement (shared/categoryRules.ts), the
server outfit-generation handler (server/routes.ts, /api/generate-outfit)
and the client OutfitEngine (client/src/lib/outfit-engine.ts).

Conventions of the embedding:
- JavaScript numbers that hold integer values are embedded as Int (or Nat
  for indices); similarity percentages, which are genuine rationals, are
  embedded as Rat.
- JavaScript strings are Lean Strings; all string operations
  (toLowerCase, trim, includes, split, template literals) are embedded as
  executable functions on the underlying character lists.
- A thrown JavaScript exception is embedded as Except.error; structured
  HTTP error responses are embedded as constructors of an explicit result
  type.
-/

namespace SmartWardrobe

/-- Lowercase conversion of a single ASCII character, mirroring the effect
of JavaScript toLowerCase on the ASCII inputs used by the system. -/
def lowerChar (c : Char) : Char :=
  if 65 ≤ c.toNat ∧ c.toNat ≤ 90 then Char.ofNat (c.toNat + 32) else c

/-- Embeds JavaScript String.prototype.toLowerCase. -/
def toLowerStr (s : String) : String := String.mk (s.data.map lowerChar)

/-- Whitespace class used by JavaScript trim, String.prototype.trim and
the regex class backslash-s, restricted to the ASCII whitespace actually
occurring in the data. -/
def jsWhitespace (c : Char) : Bool :=
  c = ' ' || c = '\t' || c = '\n' || c = '\r'

/-- Embeds JavaScript String.prototype.trim on character lists. -/
def trimChars (l : List Char) : List Char :=
  ((l.dropWhile jsWhitespace).reverse.dropWhile jsWhitespace).reverse

/-- Embeds JavaScript String.prototype.trim. -/
def trimStr (s : String) : String := String.mk (trimChars s.data)

/-- Embeds JavaScript String.prototype.includes: substring containment. -/
def hasInfixChars (needle hay : List Char) : Bool :=
  match hay with
  | [] => needle.isEmpty
  | _ :: t => needle.isPrefixOf hay || hasInfixChars needle t

/-- Embeds s.includes(sub) for JavaScript strings. -/
def strIncludes (s sub : String) : Bool := hasInfixChars sub.data s.data

/-- Decimal digit character for a value below ten. -/
def digitChar (n : Nat) : Char := Char.ofNat (48 + n)

/-- Fueled production of the decimal digit characters of a natural number,
most significant first; the fuel argument makes the recursion structural. -/
def natDecCharsAux : Nat → Nat → List Char
  | 0, _ => []
  | fuel + 1, n =>
    if n < 10 then [digitChar n]
    else natDecCharsAux fuel (n / 10) ++ [digitChar (n % 10)]

/-- Decimal digit characters of a natural number, most significant first;
this is how a nonnegative integer appears inside a template literal. -/
def natDecChars (n : Nat) : List Char := natDecCharsAux (n + 1) n

/-- Decimal rendering of an integer, as produced by a JavaScript template
literal for an integral number. -/
def intDecChars (i : Int) : List Char :=
  if i < 0 then '-' :: natDecChars i.natAbs else natDecChars i.toNat

/-- Numeric value of a list of decimal digit characters, as computed by
parseInt with radix 10 on a digits-only string. -/
def decVal (l : List Char) : Nat :=
  l.foldl (fun a c => a * 10 + (c.toNat - 48)) 0

/-- Usage counter value object, from the shared usage-count module:
current and maximum counts, a display string, and the derived flags. -/
structure UsageCount where
  current : Int
  maximum : Int
  display : String
  isAtLimit : Bool
  canUse : Bool
deriving DecidableEq, Repr

/-- Maximum number of uses per item (MAX_USAGE_COUNT). -/
def MAX_USAGE_COUNT : Int := 3

/-- Embeds createUsageCount: clamps current into the interval from 0 to
maximum and derives the display string and the two flags. The display
string is the template literal of current, a slash, maximum and the word
uses. -/
def createUsageCount (current maximum : Int) : UsageCount :=
  let clampedCurrent := max 0 (min current maximum)
  { current := clampedCurrent
    maximum := maximum
    display := String.mk
      (intDecChars clampedCurrent ++ '/' :: intDecChars maximum ++
        ' ' :: ['u', 's', 'e', 's'])
    isAtLimit := clampedCurrent ≥ maximum
    canUse := clampedCurrent < maximum }

/-- Embeds incrementUsage: a no-op at the limit, otherwise a fresh
counter with current incremented. -/
def incrementUsage (usageCount : UsageCount) : UsageCount :=
  if usageCount.isAtLimit then usageCount
  else createUsageCount (usageCount.current + 1) usageCount.maximum

/-- Embeds resetUsage. -/
def resetUsage (usageCount : UsageCount) : UsageCount :=
  createUsageCount 0 usageCount.maximum

/-- Attempt to match the usage regex (digits, slash, digits, optional
whitespace, the letters u s e case-insensitively, optional trailing s) at
the start of the character list, returning the two captured numbers. -/
def matchUsageAt (l : List Char) : Option (Nat × Nat) :=
  let d1 := l.takeWhile Char.isDigit
  let r1 := l.dropWhile Char.isDigit
  if d1.isEmpty then none
  else
    match r1 with
    | '/' :: r2 =>
      let d2 := r2.takeWhile Char.isDigit
      let r3 := r2.dropWhile Char.isDigit
      if d2.isEmpty then none
      else
        match r3.dropWhile jsWhitespace with
        | u :: s :: e :: _ =>
          if lowerChar u = 'u' ∧ lowerChar s = 's' ∧ lowerChar e = 'e' then
            some (decVal d1, decVal d2)
          else none
        | _ => none
    | _ => none

/-- Searching regex match: the first position at which the usage pattern
matches, as JavaScript String.prototype.match does with an unanchored
regex. -/
def matchUsage : List Char → Option (Nat × Nat)
  | [] => none
  | c :: t =>
    match matchUsageAt (c :: t) with
    | some r => some r
    | none => matchUsage t

/-- Maximal leading run of decimal digits, as consumed by parseInt. -/
def parseDigitsPre (l : List Char) : Option Nat :=
  let d := l.takeWhile Char.isDigit
  if d.isEmpty then none else some (decVal d)

/-- Embeds parseInt with radix 10: skip leading whitespace, an optional
sign, then a maximal digit prefix; none models the NaN result. -/
def parseIntJS (l : List Char) : Option Int :=
  match l.dropWhile jsWhitespace with
  | '-' :: r => (parseDigitsPre r).map (fun n => -(n : Int))
  | '+' :: r => (parseDigitsPre r).map (fun n => (n : Int))
  | r => (parseDigitsPre r).map (fun n => (n : Int))

/-- Union type of the argument accepted by normalizeUsageCount: a
UsageCount object, a number, or a string. -/
inductive UsageInput where
  | obj (u : UsageCount)
  | num (n : Int)
  | str (s : String)

/-- Embeds normalizeUsageCount: revalidate an object, wrap a number, or
parse a string in the X/Y-uses format, with parseInt and a zero default
as fallbacks. -/
def normalizeUsageCount (usageInput : UsageInput) : UsageCount :=
  match usageInput with
  | .obj u => createUsageCount u.current u.maximum
  | .num n => createUsageCount n MAX_USAGE_COUNT
  | .str s =>
    match matchUsage s.data with
    | some (c, m) => createUsageCount (c : Int) (m : Int)
    | none =>
      match parseIntJS s.data with
      | some n => createUsageCount n MAX_USAGE_COUNT
      | none => createUsageCount 0 MAX_USAGE_COUNT

/-- Substitution indicator of the Levenshtein recurrence: zero for equal
characters, one otherwise. -/
def levIndicator (a b : Char) : Nat := if a = b then 0 else 1

/-- One left-to-right sweep filling the non-border entries of a row of the
Levenshtein matrix of shared/utils.ts: walks the first string with, at
each step, the entry above (head of prevRest), the entry diagonally above
(diag) and the entry to the left (left). -/
def levRowGo : List Char → List Nat → Nat → Nat → Char → List Nat
  | [], _, _, _, _ => []
  | _ :: _, [], _, _, _ => []
  | c1 :: s1r, pAbove :: pRest, diag, left, c2 =>
    let cur := min (min (left + 1) (pAbove + 1)) (diag + levIndicator c1 c2)
    cur :: levRowGo s1r pRest pAbove cur c2

/-- Row j of the Levenshtein matrix, computed from row j-1; the border
entry of the row is j. -/
def levRow (s1 : List Char) (prev : List Nat) (c2 : Char) (j : Nat) : List Nat :=
  match prev with
  | [] => [j]
  | diag0 :: pRest => j :: levRowGo s1 pRest diag0 j c2

/-- Fills the Levenshtein matrix row by row over the second string. -/
def levLoop (s1 : List Char) : List Char → List Nat → Nat → List Nat
  | [], row, _ => row
  | c2 :: rest, row, j => levLoop s1 rest (levRow s1 row c2 j) (j + 1)

/-- Embeds levenshteinDistance of shared/utils.ts: dynamic program over
the matrix with border row 0..n, returning the bottom-right entry. -/
def levenshteinDistance (s1 s2 : List Char) : Nat :=
  (levLoop s1 s2 (List.range (s1.length + 1)) 1).getLastD 0

/-- Embeds calculateStringSimilarity: one hundred minus the edit distance
normalized by the longer length, floored at zero; one hundred when both
strings are empty. -/
def calculateStringSimilarity (str1 str2 : String) : ℚ :=
  let longer := if str1.length > str2.length then str1 else str2
  let shorter := if str1.length > str2.length then str2 else str1
  if longer.length = 0 then 100
  else
    max 0 (100 - ((levenshteinDistance longer.data shorter.data : ℚ) /
      (longer.length : ℚ)) * 100)

/-- Hexadecimal digit test matching the character class a-f A-F 0-9. -/
def isHexDigitChar (c : Char) : Bool :=
  c.isDigit || ('a' ≤ c && c ≤ 'f') || ('A' ≤ c && c ≤ 'F')

/-- Embeds the isValidHex check of calculateHashSimilarity: the regex
requires one or more hex digits spanning the whole string. -/
def isValidHex (s : String) : Bool :=
  !s.data.isEmpty && s.data.all isHexDigitChar

/-- Numeric value of a hexadecimal digit character. -/
def hexDigitVal (c : Char) : Nat :=
  if c.isDigit then c.toNat - 48
  else if 'a' ≤ c && c ≤ 'f' then c.toNat - 87
  else if 'A' ≤ c && c ≤ 'F' then c.toNat - 55
  else 0

/-- Value of a hex string, as computed by the BigInt conversion. -/
def hexToNat (l : List Char) : Nat :=
  l.foldl (fun a c => a * 16 + hexDigitVal c) 0

/-- Fueled binary digit characters of a natural number, most significant
first, as produced by BigInt toString with radix two. -/
def natBinCharsAux : Nat → Nat → List Char
  | 0, _ => []
  | fuel + 1, n =>
    if n < 2 then [if n = 1 then '1' else '0']
    else natBinCharsAux fuel (n / 2) ++ [if n % 2 = 1 then '1' else '0']

/-- Binary digit characters of a natural number. -/
def natBinChars (n : Nat) : List Char := natBinCharsAux (n + 1) n

/-- Embeds padStart(256, '0') on the binary string. -/
def padStartZeros (l : List Char) : List Char :=
  List.replicate (256 - l.length) '0' ++ l

/-- Embeds calculateHashSimilarity of shared/utils.ts: zero when either
hash is empty (falsy), one hundred on equality, the string-similarity
fallback when either hash is not valid hex, else a similarity from the
positional difference count of the two padded binary expansions. The
try/catch of the source is unreachable once both strings are valid hex,
so it has no counterpart here. -/
def calculateHashSimilarity (hash1 hash2 : String) : ℚ :=
  if hash1.data.isEmpty || hash2.data.isEmpty then 0
  else if hash1 = hash2 then 100
  else if !isValidHex hash1 || !isValidHex hash2 then
    calculateStringSimilarity hash1 hash2
  else
    let bin1 := padStartZeros (natBinChars (hexToNat hash1.data))
    let bin2 := padStartZeros (natBinChars (hexToNat hash2.data))
    let differences := (List.zip bin1 bin2).countP (fun p => p.1 ≠ p.2)
    max 0 (100 - ((differences : ℚ) / 256) * 100)

/-- Decimal rendering with one digit after the point, standing in for
toFixed(1) inside the reason strings; no claim inspects these
interpolated digits. -/
def ratFixed1 (q : ℚ) : String :=
  let n := (q * 10 + 1 / 2).floor
  String.mk (intDecChars (n / 10) ++ '.' :: natDecChars (n % 10).natAbs)

/-- Embeds normalizeFilename: lowercase, strip every character that is
not a lowercase letter or digit, then trim. -/
def normalizeFilename (filename : String) : String :=
  String.mk (trimChars ((toLowerStr filename).data.filter
    (fun c => ('a' ≤ c && c ≤ 'z') || ('0' ≤ c && c ≤ '9'))))

/-- Embeds String.prototype.split on a single space: consecutive
separators produce empty fragments, and the empty string yields one empty
fragment. -/
def splitOnSpaceChars : List Char → List (List Char)
  | [] => [[]]
  | c :: t =>
    let r := splitOnSpaceChars t
    if c = ' ' then [] :: r
    else
      match r with
      | h :: t2 => (c :: h) :: t2
      | [] => [[c]]

/-- Candidate item shape consumed by detectDuplicate. -/
structure ExistingItem where
  hash : String
  name : String
  type : String
  color : String
deriving DecidableEq, Repr

/-- Verdict returned by detectDuplicate. -/
structure DuplicateVerdict where
  isDuplicate : Bool
  similarity : ℚ
  matchedItem : Option ExistingItem
  reason : Option String
deriving DecidableEq, Repr

/-- Strategy one of detectDuplicate: first item whose stored hash equals
the new hash and is nonempty (truthy). -/
def findExactHash (newHash : String) (existingItems : List ExistingItem) :
    Option ExistingItem :=
  existingItems.find? (fun it => it.hash == newHash && !it.hash.data.isEmpty)

/-- Strategy two of detectDuplicate: first item with a truthy hash whose
hash similarity to the new hash reaches ninety-five, together with that
similarity. -/
def findNearHash (newHash : String) : List ExistingItem → Option (ExistingItem × ℚ)
  | [] => none
  | it :: rest =>
    if !it.hash.data.isEmpty && calculateHashSimilarity newHash it.hash ≥ 95 then
      some (it, calculateHashSimilarity newHash it.hash)
    else findNearHash newHash rest

/-- Strategy three of detectDuplicate: lowercased trimmed name equality,
strict type equality, lowercased color equality. -/
def metadataMatches (newName newType newColor : String) (it : ExistingItem) : Bool :=
  trimStr (toLowerStr it.name) == trimStr (toLowerStr newName) &&
  it.type == newType &&
  toLowerStr it.color == toLowerStr newColor

/-- Strategy four of detectDuplicate: first item with a truthy name whose
normalized-filename similarity reaches eighty-five and whose type matches,
with that similarity. -/
def findFilenameMatch (filename newType : String) :
    List ExistingItem → Option (ExistingItem × ℚ)
  | [] => none
  | it :: rest =>
    if !it.name.data.isEmpty &&
        calculateStringSimilarity (normalizeFilename filename)
          (normalizeFilename it.name) ≥ 85 &&
        it.type == newType then
      some (it, calculateStringSimilarity (normalizeFilename filename)
        (normalizeFilename it.name))
    else findFilenameMatch filename newType rest

/-- Strategy five of detectDuplicate: same type, same lowercased color,
and at least two shared words of length above three between the
lowercased names. -/
def semanticMatches (newName newType newColor : String) (it : ExistingItem) : Bool :=
  let nameWords := splitOnSpaceChars (toLowerStr newName).data
  let existingWords := splitOnSpaceChars (toLowerStr it.name).data
  let commonWords := nameWords.filter
    (fun w => w.length > 3 && existingWords.contains w)
  it.type == newType &&
  toLowerStr it.color == toLowerStr newColor &&
  commonWords.length ≥ 2

/-- Strategies three to five of detectDuplicate (metadata, filename and
semantic matching), reached when neither hash strategy fires. -/
def detectDuplicateRest (newName newType newColor : String)
    (existingItems : List ExistingItem) (filename : Option String) :
    DuplicateVerdict :=
  match existingItems.find? (metadataMatches newName newType newColor) with
  | some it =>
    ⟨true, 90, some it, some "Identical item details (name, type, color)"⟩
  | none =>
  match filename.bind (fun f =>
      if f.data.isEmpty then none
      else findFilenameMatch f newType existingItems) with
  | some (it, sim) =>
    ⟨true, sim, some it,
      some ( "Similar filename and type detected (" ++ ratFixed1 sim ++
        "% filename similarity)")⟩
  | none =>
  match existingItems.find? (semanticMatches newName newType newColor) with
  | some it =>
    ⟨true, 80, some it,
      some "Similar item with matching type and color detected"⟩
  | none => ⟨false, 0, none, none⟩

/-- Embeds detectDuplicate of shared/utils.ts: the five ordered
strategies with first match winning, returning a non-duplicate verdict
when none fires. -/
def detectDuplicate (newHash newName newType newColor : String)
    (existingItems : List ExistingItem) (filename : Option String) :
    DuplicateVerdict :=
  match findExactHash newHash existingItems with
  | some it =>
    ⟨true, 100, some it, some "Identical image detected (exact hash match)"⟩
  | none =>
  match findNearHash newHash existingItems with
  | some (it, sim) =>
    ⟨true, sim, some it,
      some ( "Very similar image detected (" ++ ratFixed1 sim ++ "% similarity)")⟩
  | none => detectDuplicateRest newName newType newColor existingItems filename

/-- A keyword-triggered category rule of shared/categoryRules.ts. -/
structure CategoryRule where
  keywords : List String
  primaryCategory : String
  subcategory : Option String
  conditions : Option (String → String → Bool)

/-- Condition of the cardigan rule: heavy-fabric indicators push toward
outerwear, light indicators toward top; the rule applies (returns true)
unless the name is clearly heavy and not light. -/
def cardiganConditions (name : String) (color : String) : Bool :=
  let nameLower := toLowerStr name
  let heavyIndicators := [ "wool", "thick", "winter", "heavy", "chunky", "cable knit" ]
  let isHeavy := heavyIndicators.any (fun indicator => strIncludes nameLower indicator)
  let lightIndicators := [ "cotton", "light", "summer", "thin", "fine knit" ]
  let isLight := lightIndicators.any (fun indicator => strIncludes nameLower indicator)
  !isHeavy || isLight

/-- Condition of the jacket rule: light jackets (bomber, denim, light)
fail the condition. -/
def jacketConditions (name : String) (color : String) : Bool :=
  let lightJackets := [ "bomber", "denim", "light" ]
  let isLight := lightJackets.any (fun t => strIncludes (toLowerStr name) t)
  !isLight

/-- Condition of the hoodie rule: winter indicators fail the condition. -/
def hoodieConditions (name : String) (color : String) : Bool :=
  let winterIndicators := [ "fleece", "thermal", "winter" ]
  let isWinter := winterIndicators.any (fun indicator => strIncludes (toLowerStr name) indicator)
  !isWinter

/-- The ordered rule list of shared/categoryRules.ts: socks, cardigans,
blazers, jackets, hoodies. -/
def categoryRules : List CategoryRule :=
  [ { keywords := [ "sock", "socks" ], primaryCategory := "accessories",
      subcategory := some "socks", conditions := none },
    { keywords := [ "cardigan" ], primaryCategory := "top",
      subcategory := some "optional_outerwear", conditions := some cardiganConditions },
    { keywords := [ "blazer", "sport coat" ], primaryCategory := "outerwear",
      subcategory := some "business", conditions := none },
    { keywords := [ "jacket" ], primaryCategory := "outerwear",
      subcategory := none, conditions := some jacketConditions },
    { keywords := [ "hoodie", "sweatshirt" ], primaryCategory := "top",
      subcategory := some "casual", conditions := some hoodieConditions } ]

/-- Result record of refineCategory. -/
structure RefinedCategory where
  type : String
  subcategory : Option String
  confidence : Nat
deriving DecidableEq, Repr

/-- Rule iteration of refineCategory: a rule whose keyword matches but
whose condition fails is skipped (continue); a matching rule with the
temperature override produces outerwear winter 95, otherwise the rule
category with confidence 90; no rule gives the original type with
confidence 70. -/
def refineGo (originalType : String) (nameLower : String) (name color : String)
    (temperature : Option Int) : List CategoryRule → RefinedCategory
  | [] => { type := originalType, subcategory := none, confidence := 70 }
  | rule :: rest =>
    if rule.keywords.any (fun keyword => strIncludes nameLower keyword) then
      if (match rule.conditions with
          | some cond => !cond name color
          | none => false) then
        refineGo originalType nameLower name color temperature rest
      else
        match temperature with
        | some t =>
          if t < 10 && rule.subcategory == some "optional_outerwear" then
            { type := "outerwear", subcategory := some "winter", confidence := 95 }
          else
            { type := rule.primaryCategory, subcategory := rule.subcategory,
              confidence := 90 }
        | none =>
          { type := rule.primaryCategory, subcategory := rule.subcategory,
            confidence := 90 }
    else refineGo originalType nameLower name color temperature rest

/-- Embeds refineCategory of shared/categoryRules.ts. -/
def refineCategory (originalType name color : String)
    (temperature : Option Int) : RefinedCategory :=
  refineGo originalType (toLowerStr name) name color temperature categoryRules

/-- Clothing item as used by the two outfit generators: the fields of
the clothing_items schema that generation reads. -/
structure Item where
  id : Int
  name : String
  type : String
  color : String
  usageCount : Int
deriving DecidableEq, Repr

/-- Placeholder item for the out-of-range branch of list indexing; every
access in the generators is guarded by a nonemptiness check, so it is
never produced. -/
def dummyItem : Item := { id := 0, name := "", type := "", color := "", usageCount := 0 }

/-- Embeds the JavaScript indexing pattern list[i % list.length]. -/
def itemAt (l : List Item) (n : Nat) : Item := l.getD (n % l.length) dummyItem

/-- True when the lowercased name of the item contains the keyword. -/
def nameIncl (it : Item) (kw : String) : Bool := strIncludes (toLowerStr it.name) kw

/-- True when the lowercased color of the item contains the keyword. -/
def colorIncl (it : Item) (kw : String) : Bool := strIncludes (toLowerStr it.color) kw

/-- Outfit record assembled by the /api/generate-outfit handler; the
occasion, temperature, timeOfDay, season and personalizedFor fields of
the response are pure echoes of the request and user inputs and are not
re-modelled. -/
structure ServerOutfit where
  name : String
  items : List Item
  score : Int
  weatherAppropriate : Bool
  recommendations : List String
deriving DecidableEq, Repr

/-- Outcome of the /api/generate-outfit handler: the 400 response for
missing essential categories, the 400 response for zero generated
outfits, or the 200 response with the outfit list. -/
inductive GenerateResult where
  | insufficient (message : String) (missing : List String) (details : String)
  | infeasible (message : String) (reason : String)
  | success (outfits : List ServerOutfit)
deriving DecidableEq, Repr

/-- Embeds getPersonalizedScore of the handler: base 100 with bonuses
for mature items, athletic-friendly items, skin-tone-friendly colors and
an all-masculine outfit. -/
def getPersonalizedScore (outfit : List Item) : Int :=
  let score0 : Int := 100
  let matureItems := outfit.filter (fun it =>
    nameIncl it "shirt" || nameIncl it "chinos" ||
    nameIncl it "blazer" || nameIncl it "polo")
  let score1 := if matureItems.length > 0 then score0 + 15 else score0
  let athleticFriendly := outfit.filter (fun it =>
    nameIncl it "polo" || nameIncl it "chinos" || nameIncl it "jacket" ||
    (it.type == "top" && colorIncl it "navy"))
  let score2 := if athleticFriendly.length > 0 then score1 + 10 else score1
  let skinToneFriendly := outfit.filter (fun it =>
    colorIncl it "navy" || colorIncl it "brown" || colorIncl it "olive" ||
    colorIncl it "cream" || colorIncl it "beige")
  let score3 := score2 + skinToneFriendly.length * 5
  let masculineItems := outfit.filter (fun it =>
    !nameIncl it "dress" && !nameIncl it "skirt")
  if masculineItems.length == outfit.length then score3 + 10 else score3

/-- Combination key of the handler, the template literal of the top id,
a dash and the bottom id. -/
def comboKey (topId bottomId : Int) : List Char :=
  intDecChars topId ++ '-' :: intDecChars bottomId

/-- Name options per occasion with the stylish-look fallback. -/
def outfitNameOptions (occasion timeOfDay : String) : List String :=
  if occasion == "casual" then
    [ "Relaxed " ++ timeOfDay, "Weekend Casual", "Comfortable Day Look" ]
  else if occasion == "smart-casual" then
    [ "Smart " ++ timeOfDay, "Polished Casual", "Refined Look" ]
  else if occasion == "formal" then
    [ "Classic Formal", "Professional Look", "Elegant Ensemble" ]
  else if occasion == "business" then
    [ "Business Professional", "Office Ready", "Executive Style" ]
  else if occasion == "party" then
    [ "Party Ready", "Social Event", "Stylish Night Out" ]
  else [ "Stylish Look" ]

/-- Request context plus categorized pools of the handler loop. -/
structure GenCtx where
  occasion : String
  temperature : Int
  timeOfDay : String
  userAge : Int
  userBodyType : String
  tops : List Item
  bottoms : List Item
  outerwear : List Item
  shoes : List Item
  accessories : List Item
  socks : List Item

/-- Recommendations attached to a server outfit. -/
def serverRecommendations (γ : GenCtx) (outfit : List Item) : List String :=
  let recs0 :=
    if γ.temperature < 14 then
      let jacketOpt := outfit.find? (fun it => it.type == "outerwear")
      match outfit.find? (fun it =>
          it.type == "top" && !(jacketOpt == some it)) with
      | some underLayer =>
        [ "Layer your " ++ toLowerStr underLayer.name ++ " under the jacket for warmth" ]
      | none => []
    else []
  let recs1 := recs0 ++ [ "Colors complement your burnt tan skin tone" ]
  let recs2 := if γ.userAge ≥ 40 then
    recs1 ++ [ "Age-appropriate styling with classic cuts" ] else recs1
  if γ.userBodyType == "athletic" then
    recs2 ++ [ "Tailored fit enhances your athletic build" ] else recs2

/-- Item-assembly section of the handler loop body: starting from the
top-bottom (and possibly jacket) base, add shoes, a formal accessory and
socks when available, then pad with the first accessory when the outfit
is still under three items. -/
def assembleOutfitItems (γ : GenCtx) (ti : Nat) (o1 : List Item) : List Item :=
  let o2 := if γ.shoes.length > 0 then o1 ++ [itemAt γ.shoes ti] else o1
  let o3 := if (γ.occasion == "formal" || γ.occasion == "business") &&
      γ.accessories.length > 0 then o2 ++ [itemAt γ.accessories ti] else o2
  let o4 := if γ.socks.length > 0 then o3 ++ [itemAt γ.socks ti] else o3
  if o4.length < 3 then
    (if γ.accessories.length > 0 &&
        !(o4.any (fun it => it.type == "accessories")) then
      o4 ++ [γ.accessories.getD 0 dummyItem]
    else o4)
  else o4

/-- One iteration body of the handler loop at indices ti and bi: none
models a continue (already-used combination, cold weather without
outerwear, or fewer than three items); some returns the assembled outfit
and the combination key to record. -/
def tryBuildOutfit (γ : GenCtx) (used : List (List Char)) (ti bi : Nat) :
    Option (ServerOutfit × List Char) :=
  let top := itemAt γ.tops ti
  let bottom := itemAt γ.bottoms bi
  let baseComboId := comboKey top.id bottom.id
  if used.contains baseComboId then none
  else
    let afterCold : Option (List Item) :=
      if γ.temperature < 14 then
        if γ.outerwear.length > 0 then
          some [top, bottom, itemAt γ.outerwear ti]
        else none
      else some [top, bottom]
    match afterCold with
    | none => none
    | some o1 =>
      let o5 := assembleOutfitItems γ ti o1
      if o5.length < 3 then none
      else
        let nameOptions := outfitNameOptions γ.occasion γ.timeOfDay
        some
          ({ name := nameOptions.getD (ti % nameOptions.length) "",
             items := o5,
             score := getPersonalizedScore o5,
             weatherAppropriate :=
               if γ.temperature < 14 then
                 o5.any (fun it => it.type == "outerwear")
               else true,
             recommendations := serverRecommendations γ o5 },
           baseComboId)

/-- The nested handler loop over index pairs in lexicographic order,
carrying the used-combination set and stopping at three outfits. -/
def genGo (γ : GenCtx) :
    List (Nat × Nat) → List (List Char) → List ServerOutfit → List ServerOutfit
  | [], _, acc => acc
  | (ti, bi) :: rest, used, acc =>
    if 3 ≤ acc.length then acc
    else
      match tryBuildOutfit γ used ti bi with
      | none => genGo γ rest used acc
      | some (o, key) => genGo γ rest (key :: used) (acc ++ [o])

/-- Index pairs enumerated by the two nested loops of the handler. -/
def genPairs (topsLen bottomsLen : Nat) : List (Nat × Nat) :=
  (List.range topsLen).flatMap (fun ti =>
    (List.range bottomsLen).map (fun bi => (ti, bi)))

/-- Descending-score order used to sort the outfit lists; JavaScript
sort with the comparator (a, b) => b.score - a.score is a stable sort by
descending score, modelled by insertion sort over this relation. -/
def scoreDescS (a b : ServerOutfit) : Prop := b.score ≤ a.score

instance : DecidableRel scoreDescS := fun a b => Int.decLe b.score a.score

/-- Embeds the /api/generate-outfit handler of server/routes.ts: filter
items under the usage limit, partition by type, fail fast when tops or
bottoms are missing, enumerate unique top-bottom combinations with
temperature layering and the minimum-size rule, sort by personalized
score and return at most three outfits, or the infeasibility response
when none were generated. -/
def generateOutfitRoute (allItems : List Item) (occasion : String)
    (temperature : Int) (timeOfDay : String) (userAge : Int)
    (userBodyType : String) : GenerateResult :=
  let availableItems := allItems.filter (fun it => it.usageCount < 3)
  let tops := availableItems.filter (fun it => it.type == "top")
  let bottoms := availableItems.filter (fun it => it.type == "bottom")
  let outerwear := availableItems.filter (fun it => it.type == "outerwear")
  let shoes := availableItems.filter (fun it => it.type == "shoes")
  let accessories := availableItems.filter (fun it => it.type == "accessories")
  let socks := availableItems.filter (fun it => it.type == "socks")
  if tops.length == 0 || bottoms.length == 0 then
    .insufficient "Insufficient wardrobe items"
      ((if tops.length == 0 then [ "tops" ] else []) ++
        (if bottoms.length == 0 then [ "bottoms" ] else []))
      "Every outfit must include at least one top and one bottom"
  else
    let γ : GenCtx :=
      { occasion := occasion, temperature := temperature, timeOfDay := timeOfDay,
        userAge := userAge, userBodyType := userBodyType,
        tops := tops, bottoms := bottoms, outerwear := outerwear,
        shoes := shoes, accessories := accessories, socks := socks }
    let outfits := genGo γ (genPairs tops.length bottoms.length) [] []
    let sorted := List.insertionSort scoreDescS outfits
    if sorted.length == 0 then
      .infeasible "Unable to create complete outfits"
        (if temperature < 14 then "No outerwear available for cold weather"
         else "Insufficient variety in wardrobe")
    else .success (sorted.take 3)

/-- Suggestion record returned by the client OutfitEngine. -/
structure OutfitSuggestion where
  name : String
  items : List Item
  score : Int
  reasons : List String
deriving DecidableEq, Repr

/-- Embeds scoreColorCombination of the OutfitEngine. -/
def scoreColorCombination (outfit : List Item) : Int :=
  let uniqueColors := (outfit.map (fun it => toLowerStr it.color)).dedup
  if uniqueColors.length ≤ 3 then 10 else -5

/-- Embeds scoreOccasionAppropriate of the OutfitEngine. -/
def scoreOccasionAppropriate (outfit : List Item) (occasion : String) : Int :=
  let formalItems := outfit.filter (fun it =>
    nameIncl it "shirt" || nameIncl it "blazer" || nameIncl it "dress" ||
    nameIncl it "chinos" || nameIncl it "dress shoes")
  let casualItems := outfit.filter (fun it =>
    nameIncl it "t-shirt" || nameIncl it "jeans" || nameIncl it "sneakers" ||
    nameIncl it "polo")
  if occasion == "formal" || occasion == "business" then
    if formalItems.length > casualItems.length then 15 else -10
  else if occasion == "casual" then
    if casualItems.length > 0 then 10 else 0
  else if occasion == "smart-casual" then
    if formalItems.length > 0 && casualItems.length > 0 then 12 else 5
  else if occasion == "party" then
    if formalItems.length > 0 then 8 else 3
  else 5

/-- Embeds scoreWeatherAppropriate of the OutfitEngine. -/
def scoreWeatherAppropriate (outfit : List Item) (temperature : Int) : Int :=
  let hasOuterwear := outfit.any (fun it => it.type == "outerwear")
  if temperature < 14 then (if hasOuterwear then 15 else -10)
  else if temperature > 25 then (if hasOuterwear then -5 else 5)
  else 0

/-- Embeds scoreTimeAppropriate of the OutfitEngine. -/
def scoreTimeAppropriate (outfit : List Item) (timeOfDay : String) : Int :=
  let darkColors := outfit.filter (fun it =>
    colorIncl it "black" || colorIncl it "navy" || colorIncl it "dark")
  if timeOfDay == "evening" || timeOfDay == "night" then
    if darkColors.length > 0 then 5 else 0
  else if timeOfDay == "morning" || timeOfDay == "afternoon" then 2
  else 0

/-- Embeds generateOutfitName of the OutfitEngine. -/
def generateOutfitName (occasion timeOfDay : String) (itemCount : Nat) : String :=
  let occasionName :=
    if occasion == "casual" then "Casual"
    else if occasion == "smart-casual" then "Smart Casual"
    else if occasion == "formal" then "Formal"
    else if occasion == "business" then "Business"
    else if occasion == "party" then "Party"
    else "Stylish"
  let timeName :=
    if timeOfDay == "morning" then "Morning"
    else if timeOfDay == "afternoon" then "Afternoon"
    else if timeOfDay == "evening" then "Evening"
    else if timeOfDay == "night" then "Night"
    else ""
  if itemCount ≥ 4 then occasionName ++ " Layered Look"
  else if timeName ≠ "" then occasionName ++ " " ++ timeName
  else occasionName ++ " Look"

/-- Context of one OutfitEngine generation call. -/
structure EngineCtx where
  occasion : String
  temperature : Int
  timeOfDay : String
  tops : List Item
  bottoms : List Item
  outerwear : List Item
  shoes : List Item
  accessories : List Item

/-- Body of the OutfitEngine loop at indices i and j: assembles the
outfit, its reasons, score and name. -/
def buildSuggestion (ε : EngineCtx) (i j : Nat) : OutfitSuggestion :=
  let top := itemAt ε.tops i
  let bottom := itemAt ε.bottoms j
  let withJacket := ε.temperature < 14 && ε.outerwear.length > 0
  let o2 := if withJacket then [top, bottom, itemAt ε.outerwear i]
    else [top, bottom]
  let reasons2 : List String :=
    if withJacket then [ "Jacket added for cool weather" ] else []
  let o3 := if ε.shoes.length > 0 then o2 ++ [itemAt ε.shoes i] else o2
  let withAccessory := (ε.occasion == "formal" || ε.occasion == "business") &&
    ε.accessories.length > 0
  let o4 := if withAccessory then o3 ++ [itemAt ε.accessories i] else o3
  let reasons4 := if withAccessory then
    reasons2 ++ [ "Accessory added for formal look" ] else reasons2
  let score := 100 + scoreColorCombination o4 +
    scoreOccasionAppropriate o4 ε.occasion +
    scoreWeatherAppropriate o4 ε.temperature +
    scoreTimeAppropriate o4 ε.timeOfDay
  { name := generateOutfitName ε.occasion ε.timeOfDay o4.length,
    items := o4,
    score := score,
    reasons := if reasons4.length > 0 then reasons4
      else [ "Well-balanced color combination", "Appropriate for the occasion" ] }

/-- The nested OutfitEngine loops: every index pair produces a
suggestion, stopping once maxSuggestions have been collected. -/
def engineGo (ε : EngineCtx) (maxSuggestions : Nat) :
    List (Nat × Nat) → List OutfitSuggestion → List OutfitSuggestion
  | [], acc => acc
  | (i, j) :: rest, acc =>
    if maxSuggestions ≤ acc.length then acc
    else engineGo ε maxSuggestions rest (acc ++ [buildSuggestion ε i j])

/-- Descending-score order on suggestions. -/
def scoreDescE (a b : OutfitSuggestion) : Prop := b.score ≤ a.score

instance : DecidableRel scoreDescE := fun a b => Int.decLe b.score a.score

instance : IsTotal ServerOutfit scoreDescS :=
  ⟨fun a b => Int.le_total b.score a.score⟩

instance : IsTrans ServerOutfit scoreDescS :=
  ⟨fun _ _ _ hab hbc => le_trans hbc hab⟩

instance : IsTotal OutfitSuggestion scoreDescE :=
  ⟨fun a b => Int.le_total b.score a.score⟩

instance : IsTrans OutfitSuggestion scoreDescE :=
  ⟨fun _ _ _ hab hbc => le_trans hbc hab⟩

/-- Embeds OutfitEngine generateOutfits of client/src/lib/outfit-engine.ts
(the usage-limit filter of the constructor included): categorize, throw
on a missing top or bottom (modelled as Except.error), enumerate up to
maxSuggestions top-bottom index pairs, then sort by score and truncate. -/
def engineGenerateOutfits (items : List Item) (occasion : String)
    (temperature : Int) (timeOfDay : String) (maxSuggestions : Nat) :
    Except String (List OutfitSuggestion) :=
  let avail := items.filter (fun it => it.usageCount < 3)
  let tops := avail.filter (fun it => it.type == "top")
  let bottoms := avail.filter (fun it => it.type == "bottom")
  let outerwear := avail.filter (fun it => it.type == "outerwear")
  let shoes := avail.filter (fun it => it.type == "shoes")
  let accessories := avail.filter (fun it => it.type == "accessories")
  if tops.length == 0 || bottoms.length == 0 then
    .error "Insufficient wardrobe items: Need at least one top and one bottom"
  else
    let ε : EngineCtx :=
      { occasion := occasion, temperature := temperature, timeOfDay := timeOfDay,
        tops := tops, bottoms := bottoms, outerwear := outerwear,
        shoes := shoes, accessories := accessories }
    let pairs := (List.range (min maxSuggestions tops.length)).flatMap (fun i =>
      (List.range (min maxSuggestions bottoms.length)).map (fun j => (i, j)))
    let outfits := engineGo ε maxSuggestions pairs []
    .ok ((List.insertionSort scoreDescE outfits).take maxSuggestions)

/-- Set of item ids of an item list, the identity of an outfit for
set-equality deduplication. -/
def itemIds (l : List Item) : Finset Int := (l.map Item.id).toFinset

theorem natDecCharsAux_congr :
    ∀ f₁ n f₂, n < f₁ → n < f₂ → natDecCharsAux f₁ n = natDecCharsAux f₂ n := by
  intro f₁
  induction f₁ with
  | zero => intro n f₂ h; omega
  | succ f ih =>
    intro n f₂ h1 h2
    match f₂, h2 with
    | f₂ + 1, h2 =>
      by_cases h10 : n < 10
      · simp [natDecCharsAux, h10]
      · have hdiv : n / 10 < n := Nat.div_lt_self (by omega) (by omega)
        simp only [natDecCharsAux, if_neg h10]
        congr 1
        exact ih (n / 10) f₂ (by omega) (by omega)

theorem natDecChars_unfold (n : Nat) :
    natDecChars n =
      if n < 10 then [digitChar n]
      else natDecChars (n / 10) ++ [digitChar (n % 10)] := by
  by_cases h10 : n < 10
  · simp [natDecChars, natDecCharsAux, h10]
  · have hdiv : n / 10 < n := Nat.div_lt_self (by omega) (by omega)
    rw [if_neg h10]
    have h1 : natDecChars n = natDecCharsAux n (n / 10) ++ [digitChar (n % 10)] := by
      show natDecCharsAux (n + 1) n = _
      rw [natDecCharsAux, if_neg h10]
    rw [h1]
    congr 1
    exact natDecCharsAux_congr n (n / 10) (n / 10 + 1) (by omega) (by omega)

theorem digitChar_toNat {n : Nat} (h : n < 10) : (digitChar n).toNat = 48 + n := by
  interval_cases n <;> rfl

theorem digitChar_isDigit {n : Nat} (h : n < 10) : (digitChar n).isDigit = true := by
  interval_cases n <;> rfl

theorem natDecChars_ne_nil (n : Nat) : natDecChars n ≠ [] := by
  rw [natDecChars_unfold]
  by_cases h10 : n < 10 <;> simp [h10]

theorem natDecChars_all_digits (n : Nat) :
    ∀ c ∈ natDecChars n, c.isDigit = true := by
  induction n using Nat.strong_induction_on with
  | _ n ih =>
    rw [natDecChars_unfold]
    by_cases h10 : n < 10
    · simp only [if_pos h10, List.mem_singleton]
      intro c hc; subst hc; exact digitChar_isDigit h10
    · have hdiv : n / 10 < n := Nat.div_lt_self (by omega) (by omega)
      simp only [if_neg h10, List.mem_append, List.mem_singleton]
      intro c hc
      rcases hc with hc | hc
      · exact ih (n / 10) hdiv c hc
      · subst hc; exact digitChar_isDigit (Nat.mod_lt n (by omega))

theorem decVal_append_singleton (l : List Char) (d : Char) :
    decVal (l ++ [d]) = decVal l * 10 + (d.toNat - 48) := by
  simp [decVal, List.foldl_append]

theorem decVal_natDecChars (n : Nat) : decVal (natDecChars n) = n := by
  induction n using Nat.strong_induction_on with
  | _ n ih =>
    rw [natDecChars_unfold]
    by_cases h10 : n < 10
    · simp only [if_pos h10]
      show decVal [digitChar n] = n
      simp [decVal, digitChar_toNat h10]
    · have hdiv : n / 10 < n := Nat.div_lt_self (by omega) (by omega)
      simp only [if_neg h10]
      rw [decVal_append_singleton, ih (n / 10) hdiv,
        digitChar_toNat (Nat.mod_lt n (by omega))]
      omega

theorem natDecChars_inj {a b : Nat} (h : natDecChars a = natDecChars b) : a = b := by
  have := decVal_natDecChars a
  rw [h, decVal_natDecChars] at this
  omega

theorem natDecChars_head_digit (n : Nat) :
    ∀ c, natDecChars n = c :: (natDecChars n).tail → c.isDigit = true := by
  intro c hc
  apply natDecChars_all_digits n
  rw [hc]; exact List.mem_cons_self c _

theorem intDecChars_inj {a b : Int} (h : intDecChars a = intDecChars b) : a = b := by
  unfold intDecChars at h
  by_cases ha : a < 0 <;> by_cases hb : b < 0
  · simp only [if_pos ha, if_pos hb, List.cons.injEq] at h
    have := natDecChars_inj h.2
    omega
  · simp only [if_pos ha, if_neg hb] at h
    exfalso
    rcases hn : natDecChars b.toNat with _ | ⟨c, t⟩
    · exact natDecChars_ne_nil _ hn
    · rw [hn] at h
      have hd : c.isDigit = true := by
        apply natDecChars_all_digits b.toNat
        rw [hn]; exact List.mem_cons_self c _
      have : c = '-' := by
        have := h.symm
        exact (List.cons.injEq _ _ _ _ ▸ this).1
      rw [this] at hd
      simp [Char.isDigit] at hd
  · simp only [if_neg ha, if_pos hb] at h
    exfalso
    rcases hn : natDecChars a.toNat with _ | ⟨c, t⟩
    · exact natDecChars_ne_nil _ hn
    · rw [hn] at h
      have hd : c.isDigit = true := by
        apply natDecChars_all_digits a.toNat
        rw [hn]; exact List.mem_cons_self c _
      have : c = '-' := (List.cons.injEq _ _ _ _ ▸ h).1
      rw [this] at hd
      simp [Char.isDigit] at hd
  · simp only [if_neg ha, if_neg hb] at h
    have := natDecChars_inj h
    omega

theorem takeWhile_append_of_not {p : Char → Bool} :
    ∀ (xs : List Char) (y : Char) (ys : List Char),
      (∀ c ∈ xs, p c = true) → p y = false →
      (xs ++ y :: ys).takeWhile p = xs ∧ (xs ++ y :: ys).dropWhile p = y :: ys := by
  intro xs y ys hxs hy
  induction xs with
  | nil => simp [List.takeWhile, List.dropWhile, hy]
  | cons x t ih =>
    have hx : p x = true := hxs x (List.mem_cons_self x t)
    have ht : ∀ c ∈ t, p c = true := fun c hc => hxs c (List.mem_cons_of_mem x hc)
    have := ih ht
    simp [List.takeWhile, List.dropWhile, hx, this.1, this.2]

theorem natDecChars_isEmpty_false (n : Nat) : (natDecChars n).isEmpty = false := by
  rcases h : natDecChars n with _ | ⟨c, t⟩
  · exact absurd h (natDecChars_ne_nil n)
  · rfl

theorem matchUsageAt_display (a b : Nat) :
    matchUsageAt (natDecChars a ++ '/' :: natDecChars b ++ ' ' :: ['u', 's', 'e', 's']) =
      some (a, b) := by
  have hslash : Char.isDigit '/' = false := by decide
  have hspace : Char.isDigit ' ' = false := by decide
  have h1 := takeWhile_append_of_not (natDecChars a) '/'
    (natDecChars b ++ ' ' :: ['u', 's', 'e', 's'])
    (natDecChars_all_digits a) hslash
  have h2 := takeWhile_append_of_not (natDecChars b) ' ' ['u', 's', 'e', 's']
    (natDecChars_all_digits b) hspace
  simp only [List.append_assoc, List.cons_append] at h1 h2 ⊢
  simp only [matchUsageAt, h1.1, h1.2, natDecChars_isEmpty_false, Bool.false_eq_true,
    if_false, h2.1, h2.2]
  have h3 : List.dropWhile jsWhitespace [' ', 'u', 's', 'e', 's'] =
      ['u', 's', 'e', 's'] := by decide
  rw [h3]
  have h4 : (lowerChar 'u' = 'u' ∧ lowerChar 's' = 's' ∧ lowerChar 'e' = 'e') := by decide
  simp only [if_pos h4, decVal_natDecChars]

theorem matchUsage_display (a b : Nat) :
    matchUsage (natDecChars a ++ '/' :: natDecChars b ++ ' ' :: ['u', 's', 'e', 's']) =
      some (a, b) := by
  obtain ⟨c0, t0, h0⟩ := List.exists_cons_of_ne_nil (natDecChars_ne_nil a)
  rw [h0]
  show matchUsage (c0 :: (t0 ++ '/' :: natDecChars b ++ ' ' :: ['u', 's', 'e', 's'])) = _
  have := matchUsageAt_display a b
  rw [h0] at this
  simp only [List.cons_append] at this
  simp only [matchUsage, this]

/-- C3 counterexample: createUsageCount accepts a negative maximum, for
which the clamped current (zero) already exceeds the maximum, and
incrementUsage returns that counter unchanged, so its output violates
current less-or-equal maximum. -/
theorem c3_increment_exceeds_on_negative_maximum :
    (incrementUsage (createUsageCount 0 (-2))).current >
      (incrementUsage (createUsageCount 0 (-2))).maximum := by decide

/-- C3 as amended: for every counter built by createUsageCount with a
nonnegative maximum, incrementUsage never produces current exceeding
maximum; and on any counter whose isAtLimit flag is set, incrementUsage
is a no-op returning an identical counter. -/
theorem c3_increment_bounded_and_noop_at_limit
    (c m : Int) (u : UsageCount) (hm : 0 ≤ m) (hu : u.isAtLimit = true) :
    (incrementUsage (createUsageCount c m)).current ≤
      (incrementUsage (createUsageCount c m)).maximum ∧
    incrementUsage u = u := by
  constructor
  · simp only [incrementUsage, createUsageCount]
    split
    · simp; omega
    · simp; omega
  · simp [incrementUsage, hu]

/-- Witness for C3: the amended statement applied at a concrete counter
below its limit and a concrete counter at its limit. -/
theorem c3_increment_bounded_and_noop_at_limit_witness :
    (0 : Int) ≤ 3 ∧ (createUsageCount 5 3).isAtLimit = true ∧
    ((incrementUsage (createUsageCount 1 3)).current ≤
        (incrementUsage (createUsageCount 1 3)).maximum ∧
      incrementUsage (createUsageCount 5 3) = createUsageCount 5 3) :=
  ⟨by decide, by decide,
    c3_increment_bounded_and_noop_at_limit 1 3 (createUsageCount 5 3)
      (by decide) (by decide)⟩

/-- C9: normalizing the display string of a counter built by
createUsageCount with a positive maximum returns a counter equal to the
original in all fields. -/
theorem c9_display_roundtrip (c m : Int) (hm : 0 < m) :
    normalizeUsageCount (.str (createUsageCount c m).display) =
      createUsageCount c m := by
  have hk0 : 0 ≤ max 0 (min c m) := le_max_left 0 _
  have hkm : max 0 (min c m) ≤ m := by
    have : min c m ≤ m := min_le_right c m
    omega
  have hdisp : (createUsageCount c m).display =
      String.mk (intDecChars (max 0 (min c m)) ++ '/' :: intDecChars m ++
        ' ' :: ['u', 's', 'e', 's']) := rfl
  have hik : intDecChars (max 0 (min c m)) = natDecChars (max 0 (min c m)).toNat := by
    rw [intDecChars, if_neg (by omega)]
  have him : intDecChars m = natDecChars m.toNat := by
    rw [intDecChars, if_neg (by omega)]
  simp only [normalizeUsageCount, hdisp, hik, him]
  rw [matchUsage_display]
  have hc : ((max 0 (min c m)).toNat : Int) = max 0 (min c m) :=
    Int.toNat_of_nonneg hk0
  have hm2 : (m.toNat : Int) = m := Int.toNat_of_nonneg (by omega)
  simp only [hc, hm2]
  have hclamp : max 0 (min (max 0 (min c m)) m) = max 0 (min c m) := by omega
  simp only [createUsageCount, hclamp]

/-- Witness for C9: the round trip at the concrete counter 2 of 3. -/
theorem c9_display_roundtrip_witness :
    (0 : Int) < 3 ∧
    normalizeUsageCount (.str (createUsageCount 2 3).display) =
      createUsageCount 2 3 :=
  ⟨by decide, c9_display_roundtrip 2 3 (by decide)⟩

theorem levRowGo_self (s : List Char) (j : Nat) (c2 : Char) (hj : 1 ≤ j)
    (hc2 : ∃ t2, s.drop (j - 1) = c2 :: t2) :
    ∀ (tail : List Char) (b : Nat), s.drop b = tail →
      levRowGo tail
        ((List.range' (b + 1) (s.length - b)).map
          (fun i => (i - (j - 1)) + ((j - 1) - i)))
        ((b - (j - 1)) + ((j - 1) - b))
        ((b - j) + (j - b)) c2
      = (List.range' (b + 1) (s.length - b)).map (fun i => (i - j) + (j - i)) := by
  intro tail
  induction tail with
  | nil =>
    intro b hb
    have hlen : s.length ≤ b := List.drop_eq_nil_iff.mp hb
    have h0 : s.length - b = 0 := by omega
    rw [h0, List.range'_zero]
    rfl
  | cons c1 tail' ih =>
    intro b hb
    have hlen : s.length - b = tail'.length + 1 := by
      have := congrArg List.length hb
      simp only [List.length_drop, List.length_cons] at this
      omega
    have hblt : b < s.length := by omega
    have hdrop1 : s.drop (b + 1) = tail' := by
      have := List.drop_drop 1 b s
      rw [hb] at this
      simpa using this.symm
    rw [hlen, List.range'_succ]
    simp only [List.map_cons, levRowGo]
    have hind01 : levIndicator c1 c2 = 0 ∨ levIndicator c1 c2 = 1 := by
      unfold levIndicator
      split
      · exact Or.inl rfl
      · exact Or.inr rfl
    have hcur :
        min (min ((b - j) + (j - b) + 1) ((b + 1 - (j - 1)) + ((j - 1) - (b + 1)) + 1))
          ((b - (j - 1)) + ((j - 1) - b) + levIndicator c1 c2)
        = ((b + 1) - j) + (j - (b + 1)) := by
      by_cases hbj : b + 1 = j
      · have hbeq : b = j - 1 := by omega
        obtain ⟨t2, ht2⟩ := hc2
        rw [← hbeq, hb] at ht2
        have hcc : c1 = c2 := (List.cons.injEq _ _ _ _ ▸ ht2).1
        have : levIndicator c1 c2 = 0 := by simp [levIndicator, hcc]
        rw [this]
        omega
      · rcases hind01 with h | h <;> rw [h] <;> omega
    rw [hcur]
    congr 1
    have htail := ih (b + 1) hdrop1
    rw [show s.length - (b + 1) = tail'.length from by omega] at htail
    exact htail

theorem levRow_self (s : List Char) (j : Nat) (c2 : Char) (hj : 1 ≤ j)
    (hc2 : ∃ t2, s.drop (j - 1) = c2 :: t2) :
    levRow s
      ((List.range (s.length + 1)).map (fun i => (i - (j - 1)) + ((j - 1) - i)))
      c2 j
    = (List.range (s.length + 1)).map (fun i => (i - j) + (j - i)) := by
  rw [List.range_eq_range', List.range'_succ, List.map_cons, List.map_cons]
  simp only [levRow]
  have h := levRowGo_self s j c2 hj hc2 s 0 rfl
  rw [show (0:Nat) - (j - 1) + ((j - 1) - 0) = j - 1 from by omega,
    show (0:Nat) - j + (j - 0) = j from by omega] at h ⊢
  congr 1

theorem levLoop_self (s : List Char) :
    ∀ (rest : List Char) (b : Nat), s.drop b = rest →
      levLoop s rest
        ((List.range (s.length + 1)).map (fun i => (i - b) + (b - i))) (b + 1)
      = (List.range (s.length + 1)).map
          (fun i => (i - (b + rest.length)) + ((b + rest.length) - i)) := by
  intro rest
  induction rest with
  | nil =>
    intro b hb
    simp [levLoop]
  | cons c2 rest' ih =>
    intro b hb
    have hdrop1 : s.drop (b + 1) = rest' := by
      have := List.drop_drop 1 b s
      rw [hb] at this
      simpa using this.symm
    simp only [levLoop]
    have hrow := levRow_self s (b + 1) c2 (by omega)
      ⟨rest', by rw [show b + 1 - 1 = b from by omega]; exact hb⟩
    rw [show b + 1 - 1 = b from by omega] at hrow
    rw [hrow, ih (b + 1) hdrop1]
    simp only [List.length_cons]
    congr 1
    funext i
    congr 1 <;> omega

theorem levenshtein_self (s : List Char) : levenshteinDistance s s = 0 := by
  unfold levenshteinDistance
  have hl := levLoop_self s s 0 rfl
  simp only [Nat.zero_add] at hl
  have hid : (List.range (s.length + 1)).map (fun i => i - 0 + (0 - i)) =
      List.range (s.length + 1) := by
    rw [show (fun i : Nat => i - 0 + (0 - i)) = fun i => i from
      funext (fun i => by omega)]
    exact List.map_id _
  rw [hid] at hl
  rw [hl, List.range_succ, List.map_append, List.map_cons, List.map_nil,
    List.getLastD_concat]
  omega

theorem stringSimilarity_self (s : String) (hs : s.data ≠ []) :
    calculateStringSimilarity s s = 100 := by
  unfold calculateStringSimilarity
  simp only [lt_irrefl, if_false]
  rw [if_neg (show ¬ s.length = 0 from fun h => hs (List.length_eq_zero.mp h))]
  rw [levenshtein_self]
  norm_num

theorem hashSimilarity_empty_left (s : String) : calculateHashSimilarity "" s = 0 := by
  simp [calculateHashSimilarity]

theorem hashSimilarity_empty_right (s : String) : calculateHashSimilarity s "" = 0 := by
  unfold calculateHashSimilarity
  rw [if_pos (by simp [List.isEmpty])]

/-- C6 counterexample: for the pair of empty strings, both inputs fail
the hex validation, yet calculateHashSimilarity returns 0 through the
empty-hash guard while the string similarity of two empty strings is
100, so the fallback value is not the string similarity there. -/
theorem c6_counterexample_empty_pair :
    isValidHex "" = false ∧
    calculateHashSimilarity "" "" = 0 ∧
    calculateStringSimilarity "" "" = 100 := by
  refine ⟨by decide, hashSimilarity_empty_left "", ?_⟩
  unfold calculateStringSimilarity
  simp

/-- C6 as amended: calculateHashSimilarity is a total function, and
whenever either input fails the hex validation it returns the normalized
edit-distance string similarity, except that the empty-hash guard comes
first: when either input is empty it returns 0 (which differs from the
string similarity only when both inputs are empty). -/
theorem c6_malformed_hash_fallback (hash1 hash2 : String)
    (h : isValidHex hash1 = false ∨ isValidHex hash2 = false) :
    calculateHashSimilarity hash1 hash2 =
      if hash1.data.isEmpty || hash2.data.isEmpty then 0
      else calculateStringSimilarity hash1 hash2 := by
  unfold calculateHashSimilarity
  by_cases he : (hash1.data.isEmpty || hash2.data.isEmpty) = true
  · rw [if_pos he, if_pos he]
  · rw [if_neg he, if_neg he]
    by_cases heq : hash1 = hash2
    · subst heq
      rw [if_pos rfl]
      have hne : hash1.data ≠ [] := by
        intro hnil
        exact he (by simp [List.isEmpty_iff, hnil])
      rw [stringSimilarity_self hash1 hne]
    · rw [if_neg heq, if_pos (by
        rcases h with h | h <;> simp [h])]

/-- Witness for C6: the amended statement applied to a malformed
(non-hexadecimal) pair of hashes. -/
theorem c6_malformed_hash_fallback_witness :
    isValidHex "zz" = false ∧
    calculateHashSimilarity "zz" "ab" =
      if ( "zz" : String).data.isEmpty || ( "ab" : String).data.isEmpty then 0
      else calculateStringSimilarity "zz" "ab" :=
  ⟨by decide, c6_malformed_hash_fallback "zz" "ab" (Or.inl (by decide))⟩

theorem findExactHash_empty_none (pool : List ExistingItem) :
    findExactHash "" pool = none := by
  rw [findExactHash, List.find?_eq_none]
  intro it _
  by_cases h : it.hash = ""
  · simp [h, List.isEmpty]
  · simp [h]

theorem findNearHash_empty_none (pool : List ExistingItem) :
    findNearHash "" pool = none := by
  induction pool with
  | nil => rfl
  | cons it rest ih =>
    have h0 : calculateHashSimilarity "" it.hash = 0 :=
      hashSimilarity_empty_left it.hash
    have hge : ¬ ((95:ℚ) ≤ 0) := by norm_num
    simp [findNearHash, h0, hge, ih, ge_iff_le]

/-- C10: with an empty new fingerprint neither hash strategy of
detectDuplicate can fire: the exact-hash search and the near-hash search
both return none (an existing item with an empty stored hash never counts
as an exact hash match for any new hash either), the hash similarity of
an empty hash with anything is 0, and detectDuplicate reduces to the
remaining strategies. -/
theorem c10_empty_fingerprint_hash_strategies
    (s : String) (pool : List ExistingItem)
    (newHash newName newType newColor : String) (filename : Option String) :
    calculateHashSimilarity "" s = 0 ∧
    calculateHashSimilarity s "" = 0 ∧
    findExactHash "" pool = none ∧
    findNearHash "" pool = none ∧
    (findExactHash newHash pool).all (fun it => !it.hash.data.isEmpty) = true ∧
    detectDuplicate "" newName newType newColor pool filename =
      detectDuplicateRest newName newType newColor pool filename := by
  refine ⟨hashSimilarity_empty_left s, hashSimilarity_empty_right s,
    findExactHash_empty_none pool, findNearHash_empty_none pool, ?_, ?_⟩
  · rcases hfind : findExactHash newHash pool with _ | it
    · rfl
    · have := List.find?_some hfind
      simp only [Option.all_some]
      exact ((Bool.and_eq_true _ _).mp this).2
  · rw [detectDuplicate, findExactHash_empty_none pool, findNearHash_empty_none pool]

/-- C5 counterexample: the candidate agrees with the new item on name,
category and color under case-insensitive comparison (type Top versus
top), the fingerprint strategies do not fire, yet detectDuplicate
returns no duplicate because the source compares the type field
case-sensitively. -/
theorem c5_counterexample_case_sensitive_type :
    toLowerStr "Top" = toLowerStr "top" ∧
    findExactHash "x" [⟨ "", "Shirt", "Top", "blue"⟩] = none ∧
    findNearHash "x" [⟨ "", "Shirt", "Top", "blue"⟩] = none ∧
    detectDuplicate "x" "Shirt" "top" "blue" [⟨ "", "Shirt", "Top", "blue"⟩] none =
      ⟨false, 0, none, none⟩ := by
  refine ⟨by decide, by decide, ?_, ?_⟩ <;> decide

/-- C5 as amended: when the fingerprint strategies do not fire and some
candidate agrees with the new item on name (case-insensitively, after
trimming) and color (case-insensitively) and on category by exact
case-sensitive equality, detectDuplicate returns a duplicate verdict
with similarity 90 and the identical-item-details reason. -/
theorem c5_metadata_match (newHash newName newType newColor : String)
    (pool : List ExistingItem) (filename : Option String)
    (h1 : findExactHash newHash pool = none)
    (h2 : findNearHash newHash pool = none)
    (h3 : ∃ it ∈ pool, metadataMatches newName newType newColor it = true) :
    ∃ it, detectDuplicate newHash newName newType newColor pool filename =
      ⟨true, 90, some it, some "Identical item details (name, type, color)"⟩ := by
  rw [detectDuplicate, h1, h2, detectDuplicateRest]
  rcases hfind : pool.find? (metadataMatches newName newType newColor) with _ | it
  · exfalso
    obtain ⟨it, hmem, hmatch⟩ := h3
    exact absurd hmatch (by simpa using List.find?_eq_none.mp hfind it hmem)
  · exact ⟨it, rfl⟩

/-- Witness for C5: the amended statement applied to a concrete pool
whose candidate matches the new item with identical type case. -/
theorem c5_metadata_match_witness :
    findExactHash "x" [⟨ "", "shirt", "top", "Blue"⟩] = none ∧
    findNearHash "x" [⟨ "", "shirt", "top", "Blue"⟩] = none ∧
    (∃ it ∈ [⟨ "", "shirt", "top", "Blue"⟩],
      metadataMatches "Shirt" "top" "blue" it = true) ∧
    ∃ it, detectDuplicate "x" "Shirt" "top" "blue"
        [⟨ "", "shirt", "top", "Blue"⟩] none =
      ⟨true, 90, some it, some "Identical item details (name, type, color)"⟩ :=
  ⟨by decide, by decide, ⟨⟨ "", "shirt", "top", "Blue"⟩, by decide⟩,
    c5_metadata_match "x" "Shirt" "top" "blue"
      [⟨ "", "shirt", "top", "Blue"⟩] none (by decide) (by decide)
      ⟨⟨ "", "shirt", "top", "Blue"⟩, by decide⟩⟩

/-- C2 evaluation at the claimed inputs: the heavy wool cardigan FAILS
the cardigan rule condition (not-heavy-or-light is false), so the rule is
skipped by the continue and refineCategory falls through to the original
type with confidence 70 instead of the claimed outerwear winter 95; the
light cotton cardigan passes the condition and is classified as a top
with the optional-outerwear subcategory and confidence 90. -/
theorem c2_refine_cardigan_eval :
    refineCategory "cardigan" "Wool Chunky Cardigan" "gray" (some 5) =
      { type := "cardigan", subcategory := none, confidence := 70 } ∧
    refineCategory "cardigan" "Light Cotton Cardigan" "cream" none =
      { type := "top", subcategory := some "optional_outerwear", confidence := 90 } := by
  constructor <;> decide

theorem tryBuildOutfit_cold_no_outerwear (γ : GenCtx)
    (hcold : γ.temperature < 14) (houter : γ.outerwear = [])
    (used : List (List Char)) (ti bi : Nat) :
    tryBuildOutfit γ used ti bi = none := by
  simp [tryBuildOutfit, hcold, houter]

theorem genGo_all_none (γ : GenCtx)
    (h : ∀ used ti bi, tryBuildOutfit γ used ti bi = none) :
    ∀ (pairs : List (Nat × Nat)) (used : List (List Char))
      (acc : List ServerOutfit), genGo γ pairs used acc = acc := by
  intro pairs
  induction pairs with
  | nil => intro used acc; rfl
  | cons p rest ih =>
    intro used acc
    obtain ⟨ti, bi⟩ := p
    rw [genGo]
    split
    · rfl
    · rw [h used ti bi]
      exact ih used acc

theorem filter_filter_nil {l : List Item} {p q : Item → Bool}
    (h : l.filter p = []) : (l.filter q).filter p = [] := by
  have hsub : List.Sublist ((l.filter q).filter p) (l.filter p) :=
    List.Sublist.filter p (List.filter_sublist l)
  rw [h] at hsub
  exact List.sublist_nil.mp hsub

/-- C1 as amended, server side: for every pool with at least one
available top, at least one available bottom, some shoes and zero
outerwear items, the /api/generate-outfit handler at five degrees
returns the explicit infeasibility response naming the cold-weather
condition, and in particular returns no outfit at all (so never a
jacket-less one). -/
theorem c1_server_cold_infeasible (allItems : List Item)
    (occasion timeOfDay : String) (userAge : Int) (userBodyType : String)
    (htop : (allItems.filter (fun it => it.usageCount < 3)).filter
      (fun it => it.type == "top") ≠ [])
    (hbot : (allItems.filter (fun it => it.usageCount < 3)).filter
      (fun it => it.type == "bottom") ≠ [])
    (hshoes : allItems.filter (fun it => it.type == "shoes") ≠ [])
    (houter : allItems.filter (fun it => it.type == "outerwear") = []) :
    generateOutfitRoute allItems occasion 5 timeOfDay userAge userBodyType =
      .infeasible "Unable to create complete outfits"
        "No outerwear available for cold weather" := by
  have houter2 : (allItems.filter (fun it => it.usageCount < 3)).filter
      (fun it => it.type == "outerwear") = [] := by
    exact filter_filter_nil houter
  have hcond : (((allItems.filter (fun it => it.usageCount < 3)).filter
        (fun it => it.type == "top")).length == 0 ||
      ((allItems.filter (fun it => it.usageCount < 3)).filter
        (fun it => it.type == "bottom")).length == 0) = false := by
    rw [Bool.or_eq_false_iff]
    refine ⟨?_, ?_⟩ <;> rw [beq_eq_false_iff_ne]
    · exact fun hlen => htop (List.length_eq_zero.mp hlen)
    · exact fun hlen => hbot (List.length_eq_zero.mp hlen)
  simp only [generateOutfitRoute, hcond, Bool.false_eq_true, if_false]
  rw [genGo_all_none _ (fun used ti bi =>
    tryBuildOutfit_cold_no_outerwear _ (by norm_num) houter2 used ti bi)]
  decide

/-- C1 counterexample, client side: at five degrees with a pool of one
top, one bottom and one pair of shoes and no outerwear, the client
OutfitEngine does not report infeasibility: it returns a suggestion
whose items contain no outerwear item. -/
theorem c1_counterexample_engine_jacketless :
    engineGenerateOutfits
      [ { id := 1, name := "Alpha", type := "top", color := "navy", usageCount := 0 },
        { id := 2, name := "Beta", type := "bottom", color := "navy", usageCount := 0 },
        { id := 3, name := "Gamma", type := "shoes", color := "navy", usageCount := 0 } ]
      "casual" 5 "morning" 3 =
      Except.ok [ { name := "Casual Morning",
                    items := [
                      { id := 1, name := "Alpha", type := "top", color := "navy", usageCount := 0 },
                      { id := 2, name := "Beta", type := "bottom", color := "navy", usageCount := 0 },
                      { id := 3, name := "Gamma", type := "shoes", color := "navy", usageCount := 0 } ],
                    score := 102,
                    reasons := [ "Well-balanced color combination",
                      "Appropriate for the occasion" ] } ] ∧
    ([ ( "top" : String), "bottom", "shoes" ].all (fun t => !(t == "outerwear"))) = true := by
  exact ⟨rfl, by decide⟩

/-- Witness for C1: the amended server statement applied to the concrete
three-item pool of the counterexample. -/
theorem c1_server_cold_infeasible_witness :
    generateOutfitRoute
      [ { id := 1, name := "Alpha", type := "top", color := "navy", usageCount := 0 },
        { id := 2, name := "Beta", type := "bottom", color := "navy", usageCount := 0 },
        { id := 3, name := "Gamma", type := "shoes", color := "navy", usageCount := 0 } ]
      "casual" 5 "morning" 40 "athletic" =
      .infeasible "Unable to create complete outfits"
        "No outerwear available for cold weather" :=
  c1_server_cold_infeasible _ _ _ _ _
    (by decide) (by decide) (by decide) (by decide)

/-- C7 as amended, server side: whenever the available items contain no
top or no bottom, the handler returns the structured insufficiency
response whose missing list names exactly the missing categories. -/
theorem c7_server_insufficient (allItems : List Item)
    (occasion timeOfDay : String) (temperature userAge : Int)
    (userBodyType : String)
    (h : (allItems.filter (fun it => it.usageCount < 3)).filter
        (fun it => it.type == "top") = [] ∨
      (allItems.filter (fun it => it.usageCount < 3)).filter
        (fun it => it.type == "bottom") = []) :
    ∃ missing,
      generateOutfitRoute allItems occasion temperature timeOfDay userAge
          userBodyType =
        .insufficient "Insufficient wardrobe items" missing
          "Every outfit must include at least one top and one bottom" ∧
      (( "tops" ∈ missing) ↔ (allItems.filter (fun it => it.usageCount < 3)).filter
        (fun it => it.type == "top") = []) ∧
      (( "bottoms" ∈ missing) ↔ (allItems.filter (fun it => it.usageCount < 3)).filter
        (fun it => it.type == "bottom") = []) ∧
      (∀ x ∈ missing, x = "tops" ∨ x = "bottoms") := by
  unfold generateOutfitRoute
  rw [if_pos (by
    simp only [Bool.or_eq_true, beq_iff_eq, List.length_eq_zero]
    exact h)]
  refine ⟨_, rfl, ?_, ?_, ?_⟩
  · by_cases h1 : (allItems.filter (fun it => it.usageCount < 3)).filter
        (fun it => it.type == "top") = []
    · have c1 : (((allItems.filter (fun it => it.usageCount < 3)).filter
          (fun it => it.type == "top")).length == 0) = true := by
        rw [h1]; rfl
      simp [c1, h1]
    · have c1 : (((allItems.filter (fun it => it.usageCount < 3)).filter
          (fun it => it.type == "top")).length == 0) = false := by
        rw [beq_eq_false_iff_ne]
        exact fun hlen => h1 (List.length_eq_zero.mp hlen)
      simp only [c1, Bool.false_eq_true, if_false, List.nil_append]
      rw [iff_false_intro h1, iff_false]
      split <;> decide
  · by_cases h2 : (allItems.filter (fun it => it.usageCount < 3)).filter
        (fun it => it.type == "bottom") = []
    · have c2 : (((allItems.filter (fun it => it.usageCount < 3)).filter
          (fun it => it.type == "bottom")).length == 0) = true := by
        rw [h2]; rfl
      simp [c2, h2]
    · have c2 : (((allItems.filter (fun it => it.usageCount < 3)).filter
          (fun it => it.type == "bottom")).length == 0) = false := by
        rw [beq_eq_false_iff_ne]
        exact fun hlen => h2 (List.length_eq_zero.mp hlen)
      simp only [c2, Bool.false_eq_true, if_false, List.append_nil]
      rw [iff_false_intro h2, iff_false]
      split <;> decide
  · intro x hx
    rcases List.mem_append.mp hx with hm | hm
    · split at hm
      · simp only [List.mem_singleton] at hm
        exact Or.inl hm
      · simp at hm
    · split at hm
      · simp only [List.mem_singleton] at hm
        exact Or.inr hm
      · simp at hm

/-- C7 counterexample, client side: on a pool with no top the client
OutfitEngine signals the insufficiency by throwing (modelled as
Except.error), not by returning a structured result value. -/
theorem c7_counterexample_engine_throws :
    engineGenerateOutfits
      [ { id := 1, name := "Jeans", type := "bottom", color := "blue", usageCount := 0 },
        { id := 2, name := "Sneakers", type := "shoes", color := "white", usageCount := 0 } ]
      "casual" 20 "morning" 3 =
      Except.error "Insufficient wardrobe items: Need at least one top and one bottom" := by
  rfl

/-- Witness for C7: the amended server statement applied to a concrete
pool missing a top. -/
theorem c7_server_insufficient_witness :
    ∃ missing,
      generateOutfitRoute
          [ { id := 1, name := "Jeans", type := "bottom", color := "blue", usageCount := 0 } ]
          "casual" 20 "morning" 40 "athletic" =
        .insufficient "Insufficient wardrobe items" missing
          "Every outfit must include at least one top and one bottom" ∧
      (( "tops" ∈ missing) ↔
        (([ { id := 1, name := "Jeans", type := "bottom", color := "blue", usageCount := 0 } ] :
            List Item).filter
            (fun it => it.usageCount < 3)).filter (fun it => it.type == "top") = []) ∧
      (( "bottoms" ∈ missing) ↔
        (([ { id := 1, name := "Jeans", type := "bottom", color := "blue", usageCount := 0 } ] :
            List Item).filter
            (fun it => it.usageCount < 3)).filter (fun it => it.type == "bottom") = []) ∧
      (∀ x ∈ missing, x = "tops" ∨ x = "bottoms") :=
  c7_server_insufficient _ _ _ _ _ _ (Or.inl (by decide))

theorem itemAt_mem {l : List Item} (h : l ≠ []) (n : Nat) : itemAt l n ∈ l := by
  unfold itemAt
  have hlen : 0 < l.length := List.length_pos.mpr h
  have hmod : n % l.length < l.length := Nat.mod_lt n hlen
  rw [List.getD_eq_getElem l dummyItem hmod]
  exact List.getElem_mem hmod

theorem shape_step {t b : Item} {P : Item → Prop} {l : List Item}
    (hl : ∃ ext, l = t :: b :: ext ∧ ∀ e ∈ ext, P e)
    (c : Prop) [Decidable c] (x : Item) (hx : c → P x) :
    ∃ ext, (if c then l ++ [x] else l) = t :: b :: ext ∧ ∀ e ∈ ext, P e := by
  obtain ⟨ext, rfl, hP⟩ := hl
  split
  next hc =>
    refine ⟨ext ++ [x], by simp, ?_⟩
    intro e he
    rcases List.mem_append.mp he with h | h
    · exact hP e h
    · simp only [List.mem_singleton] at h
      subst h
      exact hx hc
  next => exact ⟨ext, rfl, hP⟩

theorem shape_pad {t b : Item} {P : Item → Prop} {l : List Item}
    (hl : ∃ ext, l = t :: b :: ext ∧ ∀ e ∈ ext, P e)
    (c : Prop) [Decidable c] (c' : Prop) [Decidable c'] (x : Item)
    (hx : c' → P x) :
    ∃ ext, (if c then (if c' then l ++ [x] else l) else l) = t :: b :: ext ∧
      ∀ e ∈ ext, P e := by
  split
  · exact shape_step hl c' x hx
  · exact hl

theorem assembleOutfitItems_shape (γ : GenCtx) (ti : Nat) {t b : Item}
    {o1 : List Item}
    (hbase : ∃ ext, o1 = t :: b :: ext ∧
      ∀ e ∈ ext, e ∈ γ.outerwear ∨ e ∈ γ.shoes ∨ e ∈ γ.accessories ∨ e ∈ γ.socks) :
    ∃ ext, assembleOutfitItems γ ti o1 = t :: b :: ext ∧
      ∀ e ∈ ext, e ∈ γ.outerwear ∨ e ∈ γ.shoes ∨ e ∈ γ.accessories ∨ e ∈ γ.socks := by
  simp only [assembleOutfitItems]
  refine shape_pad (P := fun e => e ∈ γ.outerwear ∨ e ∈ γ.shoes ∨
      e ∈ γ.accessories ∨ e ∈ γ.socks)
    (shape_step (shape_step (shape_step hbase _ _ ?_) _ _ ?_) _ _ ?_)
    _ _ _ ?_
  · intro hc
    exact Or.inr (Or.inl (itemAt_mem (by
      intro hnil
      rw [hnil] at hc
      simp at hc) ti))
  · intro hc
    have hpos := (Bool.and_eq_true _ _).mp hc |>.2
    exact Or.inr (Or.inr (Or.inl (itemAt_mem (by
      intro hnil
      rw [hnil] at hpos
      simp at hpos) ti)))
  · intro hc
    exact Or.inr (Or.inr (Or.inr (itemAt_mem (by
      intro hnil
      rw [hnil] at hc
      simp at hc) ti)))
  · intro hc
    have hpos := (Bool.and_eq_true _ _).mp hc |>.1
    have hne : γ.accessories ≠ [] := by
      intro hnil
      rw [hnil] at hpos
      simp at hpos
    have h0 : 0 < γ.accessories.length := List.length_pos.mpr hne
    rw [List.getD_eq_getElem γ.accessories dummyItem h0]
    exact Or.inr (Or.inr (Or.inl (List.getElem_mem h0)))

theorem tryBuildOutfit_shape (γ : GenCtx) (used : List (List Char)) (ti bi : Nat)
    (o : ServerOutfit) (key : List Char)
    (h : tryBuildOutfit γ used ti bi = some (o, key)) :
    key = comboKey (itemAt γ.tops ti).id (itemAt γ.bottoms bi).id ∧
    ¬ (used.contains key = true) ∧
    ∃ ext, o.items = itemAt γ.tops ti :: itemAt γ.bottoms bi :: ext ∧
      ∀ e ∈ ext, e ∈ γ.outerwear ∨ e ∈ γ.shoes ∨ e ∈ γ.accessories ∨ e ∈ γ.socks := by
  simp only [tryBuildOutfit] at h
  split at h
  · exact absurd h (by simp)
  next hcont =>
    split at h
    next => exact absurd h (by simp)
    next o1 heq =>
      split at h
      next => exact absurd h (by simp)
      next hlen =>
        simp only [Option.some.injEq, Prod.mk.injEq] at h
        obtain ⟨ho, hk⟩ := h
        subst hk
        refine ⟨rfl, hcont, ?_⟩
        rw [← ho]
        have hbase : ∃ ext, o1 = itemAt γ.tops ti :: itemAt γ.bottoms bi :: ext ∧
            ∀ e ∈ ext, e ∈ γ.outerwear ∨ e ∈ γ.shoes ∨ e ∈ γ.accessories ∨
              e ∈ γ.socks := by
          split at heq
          · split at heq
            next houtpos =>
              simp only [Option.some.injEq] at heq
              refine ⟨[itemAt γ.outerwear ti], by rw [← heq], ?_⟩
              intro e he
              simp only [List.mem_singleton] at he
              subst he
              exact Or.inl (itemAt_mem (by
                intro hnil
                rw [hnil] at houtpos
                simp at houtpos) ti)
            next => exact absurd heq (by simp)
          · simp only [Option.some.injEq] at heq
            exact ⟨[], by rw [← heq], by intro e he; simp at he⟩
        exact assembleOutfitItems_shape γ ti hbase

theorem top_bottom_eq_of_ids_eq (pool : List Item)
    (hN : (pool.map Item.id).Nodup)
    {t b t' b' : Item} {ext ext' : List Item}
    (htt : t.type = "top") (hbt : b.type = "bottom")
    (htt' : t'.type = "top") (hbt' : b'.type = "bottom")
    (hext : ∀ e ∈ ext, e.type ≠ "top" ∧ e.type ≠ "bottom")
    (hext' : ∀ e ∈ ext', e.type ≠ "top" ∧ e.type ≠ "bottom")
    (hmem : ∀ it ∈ t :: b :: ext, it ∈ pool)
    (hmem' : ∀ it ∈ t' :: b' :: ext', it ∈ pool)
    (hids : itemIds (t :: b :: ext) = itemIds (t' :: b' :: ext')) :
    t = t' ∧ b = b' := by
  have key : ∀ x, x ∈ t :: b :: ext → x ∈ t' :: b' :: ext' := by
    intro x hx
    have hxid : x.id ∈ itemIds (t' :: b' :: ext') := by
      rw [← hids]
      unfold itemIds
      rw [List.mem_toFinset]
      exact List.mem_map_of_mem Item.id hx
    unfold itemIds at hxid
    rw [List.mem_toFinset, List.mem_map] at hxid
    obtain ⟨y, hy, hyid⟩ := hxid
    have hxy : y = x := List.inj_on_of_nodup_map hN (hmem' y hy) (hmem x hx) hyid
    rw [← hxy]
    exact hy
  constructor
  · have hmemT := key t (List.mem_cons_self t _)
    rcases List.mem_cons.mp hmemT with h | h
    · exact h
    · rcases List.mem_cons.mp h with h2 | h2
      · exfalso
        rw [h2, hbt'] at htt
        simp at htt
      · exact absurd htt (hext' t h2).1
  · have hmemB := key b (List.mem_cons_of_mem t (List.mem_cons_self b _))
    rcases List.mem_cons.mp hmemB with h | h
    · exfalso
      rw [h, htt'] at hbt
      simp at hbt
    · rcases List.mem_cons.mp h with h2 | h2
      · exact h2
      · exact absurd hbt (hext' b h2).2

theorem genGo_pairwise (γ : GenCtx) (pool : List Item)
    (hN : (pool.map Item.id).Nodup)
    (htmem : ∀ it ∈ γ.tops, it ∈ pool)
    (htt : ∀ it ∈ γ.tops, it.type = "top")
    (hbmem : ∀ it ∈ γ.bottoms, it ∈ pool)
    (hbt : ∀ it ∈ γ.bottoms, it.type = "bottom")
    (hoth : ∀ it, (it ∈ γ.outerwear ∨ it ∈ γ.shoes ∨ it ∈ γ.accessories ∨
      it ∈ γ.socks) → it ∈ pool ∧ it.type ≠ "top" ∧ it.type ≠ "bottom")
    (htne : γ.tops ≠ []) (hbne : γ.bottoms ≠ []) :
    ∀ (pairs : List (Nat × Nat)) (used : List (List Char)) (acc : List ServerOutfit),
      (∀ o ∈ acc, ∃ t b ext, t ∈ γ.tops ∧ b ∈ γ.bottoms ∧
        o.items = t :: b :: ext ∧
        (∀ e ∈ ext, e ∈ γ.outerwear ∨ e ∈ γ.shoes ∨ e ∈ γ.accessories ∨
          e ∈ γ.socks) ∧
        comboKey t.id b.id ∈ used) →
      acc.Pairwise (fun a c => itemIds a.items ≠ itemIds c.items) →
      (genGo γ pairs used acc).Pairwise
        (fun a c => itemIds a.items ≠ itemIds c.items) := by
  intro pairs
  induction pairs with
  | nil => intro used acc hinv hpw; exact hpw
  | cons p rest ih =>
    intro used acc hinv hpw
    obtain ⟨ti, bi⟩ := p
    rw [genGo]
    split
    · exact hpw
    · rcases htb : tryBuildOutfit γ used ti bi with _ | ⟨o, key⟩
      · exact ih used acc hinv hpw
      · obtain ⟨hkeyeq, hnot, ext, hsh, hext⟩ :=
          tryBuildOutfit_shape γ used ti bi o key htb
        apply ih (key :: used) (acc ++ [o])
        · intro o' ho'
          rcases List.mem_append.mp ho' with hm | hm
          · obtain ⟨t, b, e2, h1, h2, h3, h4, h5⟩ := hinv o' hm
            exact ⟨t, b, e2, h1, h2, h3, h4, List.mem_cons_of_mem _ h5⟩
          · simp only [List.mem_singleton] at hm
            subst hm
            refine ⟨itemAt γ.tops ti, itemAt γ.bottoms bi, ext,
              itemAt_mem htne ti, itemAt_mem hbne bi, hsh, hext, ?_⟩
            rw [← hkeyeq]
            exact List.mem_cons_self key used
        · rw [List.pairwise_append]
          refine ⟨hpw, List.pairwise_singleton _ _, ?_⟩
          intro a ha o' ho'
          simp only [List.mem_singleton] at ho'
          subst ho'
          obtain ⟨tA, bA, extA, hA1, hA2, hA3, hA4, hA5⟩ := hinv a ha
          intro hineq
          rw [hA3, hsh] at hineq
          have hmemsA : ∀ it ∈ tA :: bA :: extA, it ∈ pool := by
            intro it hit
            rcases List.mem_cons.mp hit with rfl | hit2
            · exact htmem _ hA1
            · rcases List.mem_cons.mp hit2 with rfl | hit3
              · exact hbmem _ hA2
              · exact (hoth it (hA4 it hit3)).1
          have hmemsO : ∀ it ∈ itemAt γ.tops ti :: itemAt γ.bottoms bi :: ext,
              it ∈ pool := by
            intro it hit
            rcases List.mem_cons.mp hit with rfl | hit2
            · exact htmem _ (itemAt_mem htne ti)
            · rcases List.mem_cons.mp hit2 with rfl | hit3
              · exact hbmem _ (itemAt_mem hbne bi)
              · exact (hoth it (hext it hit3)).1
          have heqtb := top_bottom_eq_of_ids_eq pool hN
            (htt tA hA1) (hbt bA hA2)
            (htt _ (itemAt_mem htne ti)) (hbt _ (itemAt_mem hbne bi))
            (fun e he => (hoth e (hA4 e he)).2)
            (fun e he => (hoth e (hext e he)).2)
            hmemsA hmemsO hineq
          apply hnot
          rw [hkeyeq, ← heqtb.1, ← heqtb.2]
          exact List.elem_iff.mpr hA5

theorem pairwise_sort_take {α : Type} (R : α → α → Prop)
    (hsymm : ∀ {x y : α}, R x y → R y x)
    (r : α → α → Prop) [DecidableRel r] (l : List α) (n : Nat)
    (h : l.Pairwise R) : ((List.insertionSort r l).take n).Pairwise R :=
  List.Pairwise.sublist (List.take_sublist n _)
    (((List.perm_insertionSort r l).pairwise_iff hsymm).mpr h)

theorem buildSuggestion_shape (ε : EngineCtx) (i j : Nat) :
    ∃ ext, (buildSuggestion ε i j).items =
      itemAt ε.tops i :: itemAt ε.bottoms j :: ext ∧
      ∀ e ∈ ext, e ∈ ε.outerwear ∨ e ∈ ε.shoes ∨ e ∈ ε.accessories := by
  simp only [buildSuggestion]
  have hbase : ∃ ext,
      (if (decide (ε.temperature < 14) && decide (ε.outerwear.length > 0)) = true
       then [itemAt ε.tops i, itemAt ε.bottoms j, itemAt ε.outerwear i]
       else [itemAt ε.tops i, itemAt ε.bottoms j]) =
      itemAt ε.tops i :: itemAt ε.bottoms j :: ext ∧
      ∀ e ∈ ext, e ∈ ε.outerwear ∨ e ∈ ε.shoes ∨ e ∈ ε.accessories := by
    split
    next hc =>
      have hpos := (Bool.and_eq_true _ _).mp hc |>.2
      refine ⟨[itemAt ε.outerwear i], rfl, ?_⟩
      intro e he
      simp only [List.mem_singleton] at he
      subst he
      refine Or.inl (itemAt_mem ?_ i)
      intro hnil
      rw [hnil] at hpos
      simp at hpos
    next => exact ⟨[], rfl, by intro e he; simp at he⟩
  refine shape_step (P := fun e => e ∈ ε.outerwear ∨ e ∈ ε.shoes ∨
      e ∈ ε.accessories)
    (shape_step hbase _ _ ?_) _ _ ?_
  · intro hc
    refine Or.inr (Or.inl (itemAt_mem ?_ i))
    intro hnil
    rw [hnil] at hc
    simp at hc
  · intro hc
    have hpos := (Bool.and_eq_true _ _).mp hc |>.2
    refine Or.inr (Or.inr (itemAt_mem ?_ i))
    intro hnil
    rw [hnil] at hpos
    simp at hpos

theorem engineGo_eq (ε : EngineCtx) (maxS : Nat) :
    ∀ (pairs : List (Nat × Nat)) (acc : List OutfitSuggestion),
      engineGo ε maxS pairs acc =
        acc ++ (pairs.take (maxS - acc.length)).map
          (fun p => buildSuggestion ε p.1 p.2) := by
  intro pairs
  induction pairs with
  | nil => intro acc; simp [engineGo]
  | cons p rest ih =>
    intro acc
    obtain ⟨i, j⟩ := p
    rw [engineGo]
    split
    next hle =>
      rw [Nat.sub_eq_zero_of_le hle]
      simp
    next hlt =>
      rw [ih (acc ++ [buildSuggestion ε i j])]
      have hk : maxS - acc.length = (maxS - (acc ++ [buildSuggestion ε i j]).length) + 1 := by
        simp only [List.length_append, List.length_singleton]
        omega
      rw [hk, List.take_succ_cons, List.map_cons]
      simp

theorem enginePairs_nodup (m k : Nat) :
    ((List.range m).flatMap (fun i =>
      (List.range k).map (fun j => (i, j)))).Nodup := by
  rw [List.nodup_flatMap]
  constructor
  · intro i _
    exact (List.nodup_range k).map (fun a b h => (Prod.mk.injEq _ _ _ _ ▸ h).2)
  · apply List.Pairwise.imp_of_mem ?_ (List.nodup_range m)
    intro a b _ _ hne
    intro x hx hx'
    simp only [List.mem_map, List.mem_range] at hx hx'
    obtain ⟨ja, _, rfl⟩ := hx
    obtain ⟨jb, _, hxb⟩ := hx'
    exact hne ((Prod.mk.injEq _ _ _ _ ▸ hxb).1).symm

theorem engine_pairwise (ε : EngineCtx) (pool : List Item)
    (hN : (pool.map Item.id).Nodup)
    (htmem : ∀ it ∈ ε.tops, it ∈ pool)
    (htt : ∀ it ∈ ε.tops, it.type = "top")
    (hbmem : ∀ it ∈ ε.bottoms, it ∈ pool)
    (hbt : ∀ it ∈ ε.bottoms, it.type = "bottom")
    (hoth : ∀ it, (it ∈ ε.outerwear ∨ it ∈ ε.shoes ∨ it ∈ ε.accessories) →
      it ∈ pool ∧ it.type ≠ "top" ∧ it.type ≠ "bottom")
    (htopsN : (ε.tops.map Item.id).Nodup)
    (hbotsN : (ε.bottoms.map Item.id).Nodup)
    (htne : ε.tops ≠ []) (hbne : ε.bottoms ≠ [])
    (maxS : Nat) :
    (((List.range (min maxS ε.tops.length)).flatMap (fun i =>
        (List.range (min maxS ε.bottoms.length)).map (fun j => (i, j)))).map
      (fun p => buildSuggestion ε p.1 p.2)).Pairwise
      (fun a c => itemIds a.items ≠ itemIds c.items) := by
  rw [List.pairwise_map]
  apply List.Pairwise.imp_of_mem ?_
    (enginePairs_nodup (min maxS ε.tops.length) (min maxS ε.bottoms.length))
  intro p q hp hq hne
  intro heq
  apply hne
  simp only [List.mem_flatMap, List.mem_map, List.mem_range] at hp hq
  obtain ⟨ip, hip, jp, hjp, rfl⟩ := hp
  obtain ⟨iq, hiq, jq, hjq, rfl⟩ := hq
  have hip2 : ip < ε.tops.length := lt_of_lt_of_le hip (min_le_right _ _)
  have hiq2 : iq < ε.tops.length := lt_of_lt_of_le hiq (min_le_right _ _)
  have hjp2 : jp < ε.bottoms.length := lt_of_lt_of_le hjp (min_le_right _ _)
  have hjq2 : jq < ε.bottoms.length := lt_of_lt_of_le hjq (min_le_right _ _)
  obtain ⟨extp, hshp, hextp⟩ := buildSuggestion_shape ε ip jp
  obtain ⟨extq, hshq, hextq⟩ := buildSuggestion_shape ε iq jq
  rw [hshp, hshq] at heq
  have hmemsP : ∀ it ∈ itemAt ε.tops ip :: itemAt ε.bottoms jp :: extp,
      it ∈ pool := by
    intro it hit
    rcases List.mem_cons.mp hit with rfl | hit2
    · exact htmem _ (itemAt_mem htne ip)
    · rcases List.mem_cons.mp hit2 with rfl | hit3
      · exact hbmem _ (itemAt_mem hbne jp)
      · exact (hoth it (hextp it hit3)).1
  have hmemsQ : ∀ it ∈ itemAt ε.tops iq :: itemAt ε.bottoms jq :: extq,
      it ∈ pool := by
    intro it hit
    rcases List.mem_cons.mp hit with rfl | hit2
    · exact htmem _ (itemAt_mem htne iq)
    · rcases List.mem_cons.mp hit2 with rfl | hit3
      · exact hbmem _ (itemAt_mem hbne jq)
      · exact (hoth it (hextq it hit3)).1
  have heqtb := top_bottom_eq_of_ids_eq pool hN
    (htt _ (itemAt_mem htne ip)) (hbt _ (itemAt_mem hbne jp))
    (htt _ (itemAt_mem htne iq)) (hbt _ (itemAt_mem hbne jq))
    (fun e he => (hoth e (hextp e he)).2)
    (fun e he => (hoth e (hextq e he)).2)
    hmemsP hmemsQ heq
  have hitemAtP : itemAt ε.tops ip = ε.tops[ip] := by
    unfold itemAt
    rw [Nat.mod_eq_of_lt hip2]
    exact List.getD_eq_getElem _ _ hip2
  have hitemAtQ : itemAt ε.tops iq = ε.tops[iq] := by
    unfold itemAt
    rw [Nat.mod_eq_of_lt hiq2]
    exact List.getD_eq_getElem _ _ hiq2
  have hitemAtPb : itemAt ε.bottoms jp = ε.bottoms[jp] := by
    unfold itemAt
    rw [Nat.mod_eq_of_lt hjp2]
    exact List.getD_eq_getElem _ _ hjp2
  have hitemAtQb : itemAt ε.bottoms jq = ε.bottoms[jq] := by
    unfold itemAt
    rw [Nat.mod_eq_of_lt hjq2]
    exact List.getD_eq_getElem _ _ hjq2
  have hi : ip = iq := by
    have hip3 : ip < (ε.tops.map Item.id).length := by simpa using hip2
    have hiq3 : iq < (ε.tops.map Item.id).length := by simpa using hiq2
    have hgt : (ε.tops.map Item.id)[ip] = (ε.tops.map Item.id)[iq] := by
      rw [List.getElem_map, List.getElem_map]
      rw [← hitemAtP, ← hitemAtQ, heqtb.1]
    exact (htopsN.getElem_inj_iff).mp hgt
  have hj : jp = jq := by
    have hjp3 : jp < (ε.bottoms.map Item.id).length := by simpa using hjp2
    have hjq3 : jq < (ε.bottoms.map Item.id).length := by simpa using hjq2
    have hgt : (ε.bottoms.map Item.id)[jp] = (ε.bottoms.map Item.id)[jq] := by
      rw [List.getElem_map, List.getElem_map]
      rw [← hitemAtPb, ← hitemAtQb, heqtb.2]
    exact (hbotsN.getElem_inj_iff).mp hgt
  rw [hi, hj]

/-- C4: for every item pool with pairwise-distinct item ids and every
generation context, neither the server handler nor the client
OutfitEngine ever returns two candidates whose item-id sets are equal:
the handler records each top-bottom combination key in its used set, and
the engine enumerates distinct index pairs, and an id-set determines the
top and the bottom of a candidate. -/
theorem c4_no_duplicate_item_id_sets
    (allItems : List Item) (occasion timeOfDay : String)
    (temperature userAge : Int) (userBodyType : String) (maxSuggestions : Nat)
    (hids : (allItems.map Item.id).Nodup) :
    (∀ L, generateOutfitRoute allItems occasion temperature timeOfDay userAge
        userBodyType = .success L →
      L.Pairwise (fun a c => itemIds a.items ≠ itemIds c.items)) ∧
    (∀ L, engineGenerateOutfits allItems occasion temperature timeOfDay
        maxSuggestions = .ok L →
      L.Pairwise (fun a c => itemIds a.items ≠ itemIds c.items)) := by
  constructor
  · intro L hL
    by_cases hc : ((((allItems.filter (fun it => it.usageCount < 3)).filter
          (fun it => it.type == "top")).length == 0) ||
        ((((allItems.filter (fun it => it.usageCount < 3)).filter
          (fun it => it.type == "bottom")).length == 0))) = true
    · simp only [generateOutfitRoute, hc, if_true] at hL
      exact absurd hL (by simp)
    · have hc' := eq_false_of_ne_true hc
      have hboth := Bool.or_eq_false_iff.mp hc'
      have htne : (allItems.filter (fun it => it.usageCount < 3)).filter
          (fun it => it.type == "top") ≠ [] := by
        intro hnil
        have := beq_eq_false_iff_ne.mp hboth.1
        exact this (by rw [hnil]; rfl)
      have hbne : (allItems.filter (fun it => it.usageCount < 3)).filter
          (fun it => it.type == "bottom") ≠ [] := by
        intro hnil
        have := beq_eq_false_iff_ne.mp hboth.2
        exact this (by rw [hnil]; rfl)
      simp only [generateOutfitRoute, hc', Bool.false_eq_true, if_false] at hL
      split at hL
      · exact absurd hL (by simp)
      · simp only [GenerateResult.success.injEq] at hL
        subst hL
        apply pairwise_sort_take _ (fun h he => h he.symm)
        apply genGo_pairwise _ allItems hids
          (fun it hit => List.mem_of_mem_filter (List.mem_of_mem_filter hit))
          (fun it hit => by
            have := (List.mem_filter.mp hit).2
            simpa using this)
          (fun it hit => List.mem_of_mem_filter (List.mem_of_mem_filter hit))
          (fun it hit => by
            have := (List.mem_filter.mp hit).2
            simpa using this)
          ?_ htne hbne _ _ _ ?_ List.Pairwise.nil
        · intro it h
          rcases h with h | h | h | h <;>
            refine ⟨List.mem_of_mem_filter (List.mem_of_mem_filter h), ?_⟩ <;>
            have := (List.mem_filter.mp h).2 <;>
            simp only [beq_iff_eq] at this <;>
            rw [this] <;> exact ⟨by decide, by decide⟩
        · intro o ho
          simp at ho
  · intro L hL
    by_cases hc : ((((allItems.filter (fun it => it.usageCount < 3)).filter
          (fun it => it.type == "top")).length == 0) ||
        ((((allItems.filter (fun it => it.usageCount < 3)).filter
          (fun it => it.type == "bottom")).length == 0))) = true
    · simp only [engineGenerateOutfits, hc, if_true] at hL
      exact absurd hL (by simp)
    · have hc' := eq_false_of_ne_true hc
      have hboth := Bool.or_eq_false_iff.mp hc'
      have htne : (allItems.filter (fun it => it.usageCount < 3)).filter
          (fun it => it.type == "top") ≠ [] := by
        intro hnil
        have := beq_eq_false_iff_ne.mp hboth.1
        exact this (by rw [hnil]; rfl)
      have hbne : (allItems.filter (fun it => it.usageCount < 3)).filter
          (fun it => it.type == "bottom") ≠ [] := by
        intro hnil
        have := beq_eq_false_iff_ne.mp hboth.2
        exact this (by rw [hnil]; rfl)
      simp only [engineGenerateOutfits, hc', Bool.false_eq_true, if_false] at hL
      simp only [Except.ok.injEq] at hL
      subst hL
      rw [engineGo_eq]
      simp only [List.nil_append, List.length_nil, Nat.sub_zero]
      apply pairwise_sort_take _ (fun h he => h he.symm)
      rw [List.map_take]
      refine List.Pairwise.sublist (List.take_sublist _ _) ?_
      apply engine_pairwise _ allItems hids
        (fun it hit => List.mem_of_mem_filter (List.mem_of_mem_filter hit))
        (fun it hit => by
          have := (List.mem_filter.mp hit).2
          simpa using this)
        (fun it hit => List.mem_of_mem_filter (List.mem_of_mem_filter hit))
        (fun it hit => by
          have := (List.mem_filter.mp hit).2
          simpa using this)
        ?_ ?_ ?_ htne hbne
      · intro it h
        rcases h with h | h | h <;>
          refine ⟨List.mem_of_mem_filter (List.mem_of_mem_filter h), ?_⟩ <;>
          have := (List.mem_filter.mp h).2 <;>
          simp only [beq_iff_eq] at this <;>
          rw [this] <;> exact ⟨by decide, by decide⟩
      · refine List.Nodup.sublist (List.Sublist.map Item.id ?_) hids
        exact List.Sublist.trans (List.filter_sublist _) (List.filter_sublist _)
      · refine List.Nodup.sublist (List.Sublist.map Item.id ?_) hids
        exact List.Sublist.trans (List.filter_sublist _) (List.filter_sublist _)

/-- Witness for C4: the statement applied to a concrete three-item pool
with distinct ids. -/
theorem c4_no_duplicate_item_id_sets_witness :
    ((([ { id := 1, name := "Alpha", type := "top", color := "navy", usageCount := 0 },
          { id := 2, name := "Beta", type := "bottom", color := "navy", usageCount := 0 },
          { id := 3, name := "Gamma", type := "shoes", color := "navy", usageCount := 0 } ] :
        List Item).map Item.id).Nodup) ∧
    ((∀ L, generateOutfitRoute
        [ { id := 1, name := "Alpha", type := "top", color := "navy", usageCount := 0 },
          { id := 2, name := "Beta", type := "bottom", color := "navy", usageCount := 0 },
          { id := 3, name := "Gamma", type := "shoes", color := "navy", usageCount := 0 } ]
        "casual" 20 "morning" 40 "athletic" = .success L →
      L.Pairwise (fun a c => itemIds a.items ≠ itemIds c.items)) ∧
    (∀ L, engineGenerateOutfits
        [ { id := 1, name := "Alpha", type := "top", color := "navy", usageCount := 0 },
          { id := 2, name := "Beta", type := "bottom", color := "navy", usageCount := 0 },
          { id := 3, name := "Gamma", type := "shoes", color := "navy", usageCount := 0 } ]
        "casual" 20 "morning" 3 = .ok L →
      L.Pairwise (fun a c => itemIds a.items ≠ itemIds c.items))) :=
  ⟨by decide, c4_no_duplicate_item_id_sets _ _ _ 20 40 _ 3 (by decide)⟩

theorem comboKey_ne_same_bottom {a c e : Int} (h : a ≠ c) :
    comboKey a e ≠ comboKey c e := by
  intro he
  exact h (intDecChars_inj (List.append_cancel_right he))

theorem contains_singleton_false {K1 K2 : List Char} (h : K2 ≠ K1) :
    ([K1].contains K2) = false := by
  have hne : ¬ (K2 ∈ [K1]) := by simp [h]
  cases hc : [K1].contains K2
  · rfl
  · exact absurd (List.elem_iff.mp hc) hne

theorem itemAt_pair_zero (t1 t2 : Item) : itemAt [t1, t2] 0 = t1 := by
  simp [itemAt]

theorem itemAt_pair_one (t1 t2 : Item) : itemAt [t1, t2] 1 = t2 := by
  simp [itemAt]

theorem itemAt_single (x : Item) (n : Nat) : itemAt [x] n = x := by
  simp [itemAt, Nat.mod_one]

theorem tryBuild_scenario_tbs (γ : GenCtx) (t1 t2 b s : Item)
    (htops : γ.tops = [t1, t2]) (hbots : γ.bottoms = [b])
    (hout : γ.outerwear = []) (hsh : γ.shoes = [s])
    (hacc : γ.accessories = []) (hsock : γ.socks = [])
    (h14 : ¬ γ.temperature < 14)
    (used : List (List Char)) (ti : Nat)
    (hnotused : comboKey (itemAt [t1, t2] ti).id b.id ∉ used) :
    tryBuildOutfit γ used ti 0 =
      some ({ name := (outfitNameOptions γ.occasion γ.timeOfDay).getD
                (ti % (outfitNameOptions γ.occasion γ.timeOfDay).length) "",
              items := [itemAt [t1, t2] ti, b, s],
              score := getPersonalizedScore [itemAt [t1, t2] ti, b, s],
              weatherAppropriate := true,
              recommendations :=
                serverRecommendations γ [itemAt [t1, t2] ti, b, s] },
        comboKey (itemAt [t1, t2] ti).id b.id) := by
  simp [tryBuildOutfit, assembleOutfitItems, htops, hbots, hout, hsh, hacc,
    hsock, h14, hnotused, itemAt_single]

theorem buildSuggestion_scenario_tbs (ε : EngineCtx) (t1 t2 b s : Item)
    (htops : ε.tops = [t1, t2]) (hbots : ε.bottoms = [b])
    (hout : ε.outerwear = []) (hsh : ε.shoes = [s]) (hacc : ε.accessories = [])
    (i : Nat) :
    (buildSuggestion ε i 0).items = [itemAt [t1, t2] i, b, s] := by
  simp [buildSuggestion, htops, hbots, hout, hsh, hacc, itemAt_single]

theorem triple_card (x y z : Item) (hxy : x.id ≠ y.id) (hxz : x.id ≠ z.id)
    (hyz : y.id ≠ z.id) : (itemIds [x, y, z]).card = 3 := by
  simp only [itemIds, List.map_cons, List.map_nil, List.toFinset_cons,
    List.toFinset_nil]
  rw [Finset.card_insert_of_not_mem (by simp [hxy, hxz]),
    Finset.card_insert_of_not_mem (by simp [hyz])]
  simp

theorem triple_filters (x y z : Item) (hx : x.type = "top")
    (hy : y.type = "bottom") (hz : z.type = "shoes") :
    (([x, y, z] : List Item).filter (fun it => it.type == "top")).length = 1 ∧
    (([x, y, z] : List Item).filter (fun it => it.type == "bottom")).length = 1 := by
  constructor <;> simp [List.filter_cons, hx, hy, hz]

theorem sort_take_two_server (o1 o2 : ServerOutfit) (M R : String) :
    ∃ L, (if ((List.insertionSort scoreDescS [o1, o2]).length == 0) = true
          then GenerateResult.infeasible M R
          else GenerateResult.success
            ((List.insertionSort scoreDescS [o1, o2]).take 3)) =
        GenerateResult.success L ∧
      L.length = 2 ∧ L.Sorted scoreDescS ∧ ∀ o ∈ L, o = o1 ∨ o = o2 := by
  have hlen : (List.insertionSort scoreDescS [o1, o2]).length = 2 := by
    rw [(List.perm_insertionSort scoreDescS [o1, o2]).length_eq]
    rfl
  have hsorted := List.sorted_insertionSort scoreDescS [o1, o2]
  refine ⟨(List.insertionSort scoreDescS [o1, o2]).take 3, ?_, ?_, ?_, ?_⟩
  · rw [hlen, if_neg (by decide)]
  · rw [List.length_take, hlen]
    decide
  · exact List.Pairwise.sublist (List.take_sublist _ _) hsorted
  · intro o ho
    have h1 : o ∈ List.insertionSort scoreDescS [o1, o2] :=
      (List.take_sublist _ _).subset ho
    have h2 := (List.perm_insertionSort scoreDescS [o1, o2]).mem_iff.mp h1
    simpa using h2

theorem sort_take_two_engine (o1 o2 : OutfitSuggestion) :
    ∃ L, (Except.ok ((List.insertionSort scoreDescE [o1, o2]).take 3) :
        Except String (List OutfitSuggestion)) = Except.ok L ∧
      L.length = 2 ∧ L.Sorted scoreDescE ∧ ∀ o ∈ L, o = o1 ∨ o = o2 := by
  have hlen : (List.insertionSort scoreDescE [o1, o2]).length = 2 := by
    rw [(List.perm_insertionSort scoreDescE [o1, o2]).length_eq]
    rfl
  have hsorted := List.sorted_insertionSort scoreDescE [o1, o2]
  refine ⟨(List.insertionSort scoreDescE [o1, o2]).take 3, rfl, ?_, ?_, ?_⟩
  · rw [List.length_take, hlen]
    decide
  · exact List.Pairwise.sublist (List.take_sublist _ _) hsorted
  · intro o ho
    have h1 : o ∈ List.insertionSort scoreDescE [o1, o2] :=
      (List.take_sublist _ _).subset ho
    have h2 := (List.perm_insertionSort scoreDescE [o1, o2]).mem_iff.mp h1
    simpa using h2

/-- C8: for every pool of exactly two tops, one bottom and one pair of
shoes, all under the usage limit and with distinct ids, and every
context: the server handler with its hard-coded maximum of three returns,
when warm, exactly two candidates (the number of admissible top-bottom
combinations, below the cap of three), ordered by score descending, each
with three distinct items and exactly one top and one bottom; when cold
it returns the infeasibility response (zero feasible combinations). The
client OutfitEngine with maxSuggestions three returns two such
candidates at every temperature. -/
theorem c8_two_tops_one_bottom_one_shoes
    (t1 t2 b s : Item) (occasion timeOfDay : String)
    (temperature userAge : Int) (userBodyType : String)
    (ht1 : t1.type = "top") (ht2 : t2.type = "top")
    (hbty : b.type = "bottom") (hsty : s.type = "shoes")
    (hu1 : t1.usageCount < 3) (hu2 : t2.usageCount < 3)
    (hu3 : b.usageCount < 3) (hu4 : s.usageCount < 3)
    (h12 : t1.id ≠ t2.id) (h1b : t1.id ≠ b.id) (h1s : t1.id ≠ s.id)
    (h2b : t2.id ≠ b.id) (h2s : t2.id ≠ s.id) (hbs : b.id ≠ s.id) :
    ((temperature < 14 →
       generateOutfitRoute [t1, t2, b, s] occasion temperature timeOfDay
           userAge userBodyType =
         .infeasible "Unable to create complete outfits"
           "No outerwear available for cold weather") ∧
     (¬ temperature < 14 →
       ∃ L, generateOutfitRoute [t1, t2, b, s] occasion temperature timeOfDay
             userAge userBodyType = .success L ∧
         L.length = 2 ∧ L.Sorted scoreDescS ∧
         ∀ o ∈ L, (itemIds o.items).card = 3 ∧
           (o.items.filter (fun it => it.type == "top")).length = 1 ∧
           (o.items.filter (fun it => it.type == "bottom")).length = 1)) ∧
    (∃ L, engineGenerateOutfits [t1, t2, b, s] occasion temperature timeOfDay 3 =
          .ok L ∧
       L.length = 2 ∧ L.Sorted scoreDescE ∧
       ∀ o ∈ L, (itemIds o.items).card = 3 ∧
         (o.items.filter (fun it => it.type == "top")).length = 1 ∧
         (o.items.filter (fun it => it.type == "bottom")).length = 1) := by
  have hfall : ([t1, t2, b, s] : List Item).filter
      (fun it => it.usageCount < 3) = [t1, t2, b, s] := by
    rw [List.filter_eq_self]
    intro a ha
    simp only [List.mem_cons, List.not_mem_nil, or_false] at ha
    rcases ha with rfl | rfl | rfl | rfl <;> simp [hu1, hu2, hu3, hu4]
  have hftop : ([t1, t2, b, s] : List Item).filter
      (fun it => it.type == "top") = [t1, t2] := by
    simp [List.filter_cons, ht1, ht2, hbty, hsty]
  have hfbot : ([t1, t2, b, s] : List Item).filter
      (fun it => it.type == "bottom") = [b] := by
    simp [List.filter_cons, ht1, ht2, hbty, hsty]
  have hfout : ([t1, t2, b, s] : List Item).filter
      (fun it => it.type == "outerwear") = [] := by
    simp [List.filter_cons, ht1, ht2, hbty, hsty]
  have hfshoe : ([t1, t2, b, s] : List Item).filter
      (fun it => it.type == "shoes") = [s] := by
    simp [List.filter_cons, ht1, ht2, hbty, hsty]
  have hfacc : ([t1, t2, b, s] : List Item).filter
      (fun it => it.type == "accessories") = [] := by
    simp [List.filter_cons, ht1, ht2, hbty, hsty]
  have hfsock : ([t1, t2, b, s] : List Item).filter
      (fun it => it.type == "socks") = [] := by
    simp [List.filter_cons, ht1, ht2, hbty, hsty]
  refine ⟨⟨?_, ?_⟩, ?_⟩
  · intro hcold
    simp only [generateOutfitRoute, hfall, hftop, hfbot, hfout, hfshoe,
      hfacc, hfsock]
    rw [if_neg (show ¬ ((([t1, t2] : List Item).length == 0 ||
      ([b] : List Item).length == 0) = true) by simp)]
    rw [genGo_all_none _ (fun used ti bi =>
      tryBuildOutfit_cold_no_outerwear _ hcold rfl used ti bi)]
    rw [if_pos (by rfl), if_pos hcold]
  · intro h14
    have hK2ne : comboKey t2.id b.id ≠ comboKey t1.id b.id :=
      comboKey_ne_same_bottom (Ne.symm h12)
    simp only [generateOutfitRoute, hfall, hftop, hfbot, hfout, hfshoe,
      hfacc, hfsock]
    rw [if_neg (show ¬ ((([t1, t2] : List Item).length == 0 ||
      ([b] : List Item).length == 0) = true) by simp)]
    rw [show ([t1, t2] : List Item).length = 2 from rfl,
      show ([b] : List Item).length = 1 from rfl,
      show genPairs 2 1 = [(0, 0), (1, 0)] from rfl]
    set γ0 : GenCtx :=
      { occasion := occasion, temperature := temperature,
        timeOfDay := timeOfDay, userAge := userAge,
        userBodyType := userBodyType, tops := [t1, t2], bottoms := [b],
        outerwear := [], shoes := [s], accessories := [], socks := [] }
      with hγ0
    have h00 := tryBuild_scenario_tbs γ0 t1 t2 b s (by rw [hγ0]) (by rw [hγ0])
      (by rw [hγ0]) (by rw [hγ0]) (by rw [hγ0]) (by rw [hγ0]) h14 [] 0
      (List.not_mem_nil _)
    rw [itemAt_pair_zero] at h00
    have h10 := tryBuild_scenario_tbs γ0 t1 t2 b s (by rw [hγ0]) (by rw [hγ0])
      (by rw [hγ0]) (by rw [hγ0]) (by rw [hγ0]) (by rw [hγ0]) h14
      [comboKey t1.id b.id] 1 (by rw [itemAt_pair_one]; simp [hK2ne])
    rw [itemAt_pair_one] at h10
    have hgen : genGo γ0 [(0, 0), (1, 0)] [] [] =
        [({ name := (outfitNameOptions γ0.occasion γ0.timeOfDay).getD
              (0 % (outfitNameOptions γ0.occasion γ0.timeOfDay).length) "",
            items := [t1, b, s],
            score := getPersonalizedScore [t1, b, s],
            weatherAppropriate := true,
            recommendations := serverRecommendations γ0 [t1, b, s] } :
            ServerOutfit),
          { name := (outfitNameOptions γ0.occasion γ0.timeOfDay).getD
              (1 % (outfitNameOptions γ0.occasion γ0.timeOfDay).length) "",
            items := [t2, b, s],
            score := getPersonalizedScore [t2, b, s],
            weatherAppropriate := true,
            recommendations := serverRecommendations γ0 [t2, b, s] }] := by
      simp only [genGo, h00, h10, List.length_nil, List.length_cons,
        List.nil_append, List.cons_append, List.length_append]
      norm_num
    rw [hgen]
    obtain ⟨L, hL1, hL2, hL3, hL4⟩ := sort_take_two_server _ _
      "Unable to create complete outfits"
      (if temperature < 14 then "No outerwear available for cold weather"
       else "Insufficient variety in wardrobe")
    refine ⟨L, hL1, hL2, hL3, ?_⟩
    intro o ho
    rcases hL4 o ho with rfl | rfl
    · exact ⟨triple_card t1 b s h1b h1s hbs,
        (triple_filters t1 b s ht1 hbty hsty).1,
        (triple_filters t1 b s ht1 hbty hsty).2⟩
    · exact ⟨triple_card t2 b s h2b h2s hbs,
        (triple_filters t2 b s ht2 hbty hsty).1,
        (triple_filters t2 b s ht2 hbty hsty).2⟩
  · simp only [engineGenerateOutfits, hfall, hftop, hfbot, hfout, hfshoe, hfacc]
    rw [if_neg (show ¬ ((([t1, t2] : List Item).length == 0 ||
      ([b] : List Item).length == 0) = true) by simp)]
    set ε0 : EngineCtx :=
      { occasion := occasion, temperature := temperature,
        timeOfDay := timeOfDay, tops := [t1, t2], bottoms := [b],
        outerwear := [], shoes := [s], accessories := [] }
      with hε0
    have hi0 : (buildSuggestion ε0 0 0).items = [t1, b, s] := by
      rw [buildSuggestion_scenario_tbs ε0 t1 t2 b s (by rw [hε0]) (by rw [hε0])
        (by rw [hε0]) (by rw [hε0]) (by rw [hε0]) 0, itemAt_pair_zero]
    have hi1 : (buildSuggestion ε0 1 0).items = [t2, b, s] := by
      rw [buildSuggestion_scenario_tbs ε0 t1 t2 b s (by rw [hε0]) (by rw [hε0])
        (by rw [hε0]) (by rw [hε0]) (by rw [hε0]) 1, itemAt_pair_one]
    have heg : engineGo ε0 3
        ((List.range (min 3 ([t1, t2] : List Item).length)).flatMap (fun i =>
          (List.range (min 3 ([b] : List Item).length)).map (fun j => (i, j))))
        [] = [buildSuggestion ε0 0 0, buildSuggestion ε0 1 0] := by
      rw [engineGo_eq]
      rfl
    rw [heg]
    obtain ⟨L, hL1, hL2, hL3, hL4⟩ := sort_take_two_engine
      (buildSuggestion ε0 0 0) (buildSuggestion ε0 1 0)
    refine ⟨L, hL1, hL2, hL3, ?_⟩
    intro o ho
    rcases hL4 o ho with rfl | rfl
    · rw [hi0]
      exact ⟨triple_card t1 b s h1b h1s hbs,
        (triple_filters t1 b s ht1 hbty hsty).1,
        (triple_filters t1 b s ht1 hbty hsty).2⟩
    · rw [hi1]
      exact ⟨triple_card t2 b s h2b h2s hbs,
        (triple_filters t2 b s ht2 hbty hsty).1,
        (triple_filters t2 b s ht2 hbty hsty).2⟩

theorem c8_two_tops_one_bottom_one_shoes_witness :
    (((20 : Int) < 14 →
       generateOutfitRoute
         [ { id := 1, name := "Alpha", type := "top", color := "navy", usageCount := 0 },
           { id := 2, name := "Beta", type := "top", color := "red", usageCount := 0 },
           { id := 3, name := "Gamma", type := "bottom", color := "navy", usageCount := 0 },
           { id := 4, name := "Delta", type := "shoes", color := "white", usageCount := 0 } ]
         "casual" 20 "morning" 40 "athletic" =
         .infeasible "Unable to create complete outfits"
           "No outerwear available for cold weather") ∧
     (¬ (20 : Int) < 14 →
       ∃ L, generateOutfitRoute
         [ { id := 1, name := "Alpha", type := "top", color := "navy", usageCount := 0 },
           { id := 2, name := "Beta", type := "top", color := "red", usageCount := 0 },
           { id := 3, name := "Gamma", type := "bottom", color := "navy", usageCount := 0 },
           { id := 4, name := "Delta", type := "shoes", color := "white", usageCount := 0 } ]
         "casual" 20 "morning" 40 "athletic" = .success L ∧
         L.length = 2 ∧ L.Sorted scoreDescS ∧
         ∀ o ∈ L, (itemIds o.items).card = 3 ∧
           (o.items.filter (fun it => it.type == "top")).length = 1 ∧
           (o.items.filter (fun it => it.type == "bottom")).length = 1)) ∧
    (∃ L, engineGenerateOutfits
         [ { id := 1, name := "Alpha", type := "top", color := "navy", usageCount := 0 },
           { id := 2, name := "Beta", type := "top", color := "red", usageCount := 0 },
           { id := 3, name := "Gamma", type := "bottom", color := "navy", usageCount := 0 },
           { id := 4, name := "Delta", type := "shoes", color := "white", usageCount := 0 } ]
         "casual" 20 "morning" 3 = .ok L ∧
       L.length = 2 ∧ L.Sorted scoreDescE ∧
       ∀ o ∈ L, (itemIds o.items).card = 3 ∧
         (o.items.filter (fun it => it.type == "top")).length = 1 ∧
         (o.items.filter (fun it => it.type == "bottom")).length = 1) :=
  c8_two_tops_one_bottom_one_shoes _ _ _ _ "casual" "morning" 20 40 "athletic"
    (by decide) (by decide) (by decide) (by decide)
    (by decide) (by decide) (by decide) (by decide)
    (by decide) (by decide) (by decide) (by decide) (by decide) (by decide)

end SmartWardrobe
